import Mathlib

/-!
# sfc-controller: render transaction coordinator and L2PP topology renderer

A shallow embedding of `plugins/controller/rendertxn.go`,
`plugins/controller/topology_l2pp.go` and the status reload of
`plugins/controller/plugin_impl_controller.go`.

Package-level variables (`beforeMap`, `afterMap`, `level`, `configMutex`) and the
parts of the plugin the functions touch are carried in explicit state records.
A Go runtime panic is an `Except.error` carrying a `Fault`.
-/

namespace SfcController

/-! ## Go runtime -/

/-- Ways in which the Go runtime stops the embedded functions. -/
inductive Fault where
  /-- Panic: assignment to entry in nil map. -/
  | nilMapWrite
  /-- Panic: invalid memory address or nil pointer dereference. -/
  | nilDeref
  /-- Panic: index out of range. -/
  | indexOutOfRange
  /-- Fatal error: sync: unlock of unlocked mutex. -/
  | unlockOfUnlockedMutex
  /-- The goroutine blocks in `Lock` on a mutex that is already held. -/
  | lockBlocked
deriving DecidableEq, Repr

deriving instance DecidableEq for Except

/-- A Go `error` value; `none` is `nil`. The text is the format string handed to
`fmt.Errorf`. -/
abbrev GoError := Option String

/-- Contents of a non-nil Go map, as an association list with unique keys. -/
abbrev GoMap (κ : Type) (ν : Type) := List (κ × ν)

/-- Go `v, exists := m[k]` on a non-nil map. -/
def GoMap.get {κ ν : Type} [DecidableEq κ] (m : GoMap κ ν) (k : κ) : Option ν :=
  (m.find? (fun p => decide (p.1 = k))).map Prod.snd

/-- Go `m[k] = v` on a non-nil map: the old binding of `k`, if any, is replaced. -/
def GoMap.set {κ ν : Type} [DecidableEq κ] (m : GoMap κ ν) (k : κ) (v : ν) : GoMap κ ν :=
  (k, v) :: m.filter (fun p => decide (p.1 ≠ k))

/-! ## Data model of the transaction coordinator -/

/-- Modelled from the spec: `vppagent.KVType` is declared outside the embedded files.
A dataplane object has a unique key, a type and a payload; only `VppKey` and
`VppEntryType` are named by the embedded code. -/
structure KVType where
  VppKey : String
  VppEntryType : String
  payload : Nat
deriving DecidableEq, Repr

/-- The type `controller.RenderedVppAgentEntry`, as used by the commented-out body of
`RenderTxnAddVppEntryToTxn`. -/
structure RenderedVppAgentEntry where
  VppAgentKey : String
  VppAgentType : String
deriving DecidableEq, Repr

/-- An operation issued to the remote configuration store (etcd). -/
inductive StoreOp where
  | put (key : String) (value : KVType)
  | delete (key : String)
deriving DecidableEq, Repr

/-- The key a store operation targets. -/
def StoreOp.key : StoreOp → String
  | .put k _ => k
  | .delete k => k

/-- Whether the operation is a write. -/
def StoreOp.isPut : StoreOp → Bool
  | .put _ _ => true
  | .delete _ => false

/-- Whether the operation is a delete. -/
def StoreOp.isDelete : StoreOp → Bool
  | .put _ _ => false
  | .delete _ => true

/-- A value of Go type `map[string]*vppagent.KVType`; `none` is the nil map. -/
abbrev KVMap := Option (GoMap String KVType)

/-- A value of Go type `map[int]map[string]*vppagent.KVType`; `none` is the nil map. -/
abbrev LevelMap := Option (GoMap Int KVMap)

/-- Go read `m[level]` of a level map: a nil outer map and an absent level both yield the
nil inner map. -/
def LevelMap.at (m : LevelMap) (level : Int) : KVMap :=
  match m with
  | none => none
  | some lm => (GoMap.get lm level).join

/-- Go read `m[level][key]`; reading a nil map yields no entry. -/
def LevelMap.entry (m : LevelMap) (level : Int) (key : String) : Option KVType :=
  match LevelMap.at m level with
  | none => none
  | some kv => GoMap.get kv key

/-- Everything the transaction functions can read or write: the package variables of
`rendertxn.go`, the render cache entry map `ramConfigCache.VppEntries`, and the sequence of
operations issued to the store so far. -/
structure TxnState where
  /-- The field `s.ramConfigCache.VppEntries`. -/
  VppEntries : GoMap String KVType
  /-- Package variable `beforeMap`. -/
  beforeMap : LevelMap
  /-- Package variable `afterMap`. -/
  afterMap : LevelMap
  /-- Package variable `level` (a Go `int`; no reachable state comes near its bounds). -/
  level : Int
  /-- Whether `configMutex` is held. -/
  configMutex : Bool
  /-- Operations issued to etcd so far, oldest first. -/
  store : List StoreOp
deriving DecidableEq, Repr

/-! ## `rendertxn.go` -/

/-- Source `initLevelMap(level)`, lines 63-69. Each of the three assignments panics when the
map it writes to is nil. -/
def initLevelMap (s : TxnState) (level : Int) : Except Fault TxnState :=
  match s.beforeMap with
  | none => .error .nilMapWrite
  | some b =>
    let b1 := GoMap.set b level (none : KVMap)
    let b2 := GoMap.set b1 level (some [] : KVMap)
    match s.afterMap with
    | none => .error .nilMapWrite
    | some a =>
      .ok { s with beforeMap := some b2, afterMap := some (GoMap.set a level (some [] : KVMap)) }

/-- Source `removeLevelMap(level)`, lines 71-74. -/
def removeLevelMap (s : TxnState) (level : Int) : Except Fault TxnState :=
  match s.beforeMap with
  | none => .error .nilMapWrite
  | some b =>
    match s.afterMap with
    | none => .error .nilMapWrite
    | some a =>
      .ok { s with beforeMap := some (GoMap.set b level (none : KVMap)),
                   afterMap := some (GoMap.set a level (none : KVMap)) }

/-- Source `RenderTxnConfigStart()`, lines 36-49. `configMutex.Lock()` does not return
while the mutex is held. -/
def RenderTxnConfigStart (s : TxnState) : Except Fault TxnState :=
  if s.configMutex then .error .lockBlocked
  else
    initLevelMap
      { s with configMutex := true, beforeMap := some [], afterMap := some [], level := 0 } 0

/-- Source `RenderTxnConfigEntityStart()`, lines 52-55. -/
def RenderTxnConfigEntityStart (s : TxnState) : Except Fault TxnState :=
  initLevelMap { s with level := s.level + 1 } (s.level + 1)

/-- Source `RenderTxnConfigEntityEnd()`, lines 58-61. -/
def RenderTxnConfigEntityEnd (s : TxnState) : Except Fault TxnState :=
  initLevelMap { s with level := s.level + 1 } (s.level + 1)

/-- Source `RenderTxnConfigEntityRemoveEntries()`, lines 77-83. -/
def RenderTxnConfigEntityRemoveEntries (s : TxnState) : TxnState :=
  { s with afterMap := none }

/-- Source `RenderTxnConfigEnd()`, lines 86-158. The only statements that are not
commented out are the deferred `configMutex.Unlock()`, two log calls and `return nil`. -/
def RenderTxnConfigEnd (s : TxnState) : Except Fault (TxnState × GoError) :=
  if s.configMutex then .ok ({ s with configMutex := false }, none)
  else .error .unlockOfUnlockedMutex

/-- Source `RenderTxnAddVppEntryToTxn`, lines 172-193. The named result `newArray` is never
assigned, so the nil slice is returned. -/
def RenderTxnAddVppEntryToTxn (s : TxnState)
    (_renderedVppAgentEntries : List RenderedVppAgentEntry) (_vppKV : KVType) :
    TxnState × List RenderedVppAgentEntry :=
  (s, [])

/-- Source `RenderTxnAddVppEntriesToTxn`, lines 161-169. -/
def RenderTxnAddVppEntriesToTxn (s : TxnState)
    (renderedVppAgentEntries : List RenderedVppAgentEntry) (vppKVs : List KVType) :
    TxnState × List RenderedVppAgentEntry :=
  vppKVs.foldl (fun acc vppKV => RenderTxnAddVppEntryToTxn acc.1 acc.2 vppKV)
    (s, renderedVppAgentEntries)

/-- The store operations issued between state `s` and a later state `t`. -/
def issuedBetween (s t : TxnState) : List StoreOp :=
  t.store.drop s.store.length

/-! ## Go arrays, slices and loops used by `topology_l2pp.go` -/

/-- A Go array of type `[2]T`. -/
structure Arr2 (τ : Type) where
  e0 : τ
  e1 : τ
deriving DecidableEq, Repr

/-- Go `a[i]` on a `[2]T`. -/
def Arr2.get {τ : Type} (a : Arr2 τ) (i : Int) : Except Fault τ :=
  if i = 0 then .ok a.e0 else if i = 1 then .ok a.e1 else .error .indexOutOfRange

/-- Go `a[i] = v` on a `[2]T`. -/
def Arr2.set {τ : Type} (a : Arr2 τ) (i : Int) (v : τ) : Except Fault (Arr2 τ) :=
  if i = 0 then .ok { a with e0 := v }
  else if i = 1 then .ok { a with e1 := v }
  else .error .indexOutOfRange

/-- Go `xs[i]` on a slice. -/
def sliceGet {τ : Type} (xs : List τ) (i : Int) : Except Fault τ :=
  if i < 0 then .error .indexOutOfRange
  else
    match xs.get? i.toNat with
    | some x => .ok x
    | none => .error .indexOutOfRange

/-- Go `*p` (a field access through pointer `p`); `none` is the nil pointer. -/
def deref {τ : Type} (p : Option τ) : Except Fault τ :=
  match p with
  | some x => .ok x
  | none => .error .nilDeref

/-- The Go expression `^i&1`: bitwise complement of `i`, then bitwise and with 1. -/
def peer (i : Int) : Int := Int.land (Int.not i) 1

/-- How one pass through a loop body ends: it falls through to the next iteration, or it
executes a `return`. -/
inductive Flow (σ : Type) (ρ : Type) where
  | next (st : σ)
  | ret (r : ρ)
deriving DecidableEq, Repr

/-- The Go loop `for i := 0; i < 2; i++ { body }`. -/
def for2 {σ ρ : Type} (body : Int → σ → Except Fault (Flow σ ρ)) (st : σ) :
    Except Fault (Flow σ ρ) :=
  match body 0 st with
  | .error f => .error f
  | .ok (.ret r) => .ok (.ret r)
  | .ok (.next st1) => body 1 st1

/-! ## Data model of the topology renderer

The protobuf-generated types of package `model` are not among the embedded files; the
records below carry the fields that `topology_l2pp.go` reads. -/

/-- The message `controller.Interface.MemifParms`. -/
structure Interface_MemifParms where
  InterVnfConn : String
deriving DecidableEq, Repr

/-- The message `controller.Interface`; `MemifParms` is a pointer, `none` is nil. -/
structure Interface where
  Name : String
  IfType : String
  MemifParms : Option Interface_MemifParms
deriving DecidableEq, Repr

/-- An element of `conn.Interfaces`: one endpoint of a connection. -/
structure ConnectionInterface where
  Vnf : String
  Interface : String
deriving DecidableEq, Repr

/-- The message `controller.Connection`. -/
structure Connection where
  Interfaces : List ConnectionInterface
  NodeOverlay : String
deriving DecidableEq, Repr

/-- The message `controller.VNFToNodeMap`. -/
structure VNFToNodeMap where
  Vnf : String
  Node : String
deriving DecidableEq, Repr

/-- The message `controller.Node`. -/
structure Node where
  Name : String
deriving DecidableEq, Repr

/-- The message `controller.VNF`. -/
structure VNF where
  Name : String
  VnfType : String
  Interfaces : List Interface
deriving DecidableEq, Repr

/-- The message `controller.VNFService`. -/
structure VNFService where
  Name : String
deriving DecidableEq, Repr

/-- The message `controller.NodeOverlay.VxlanMeshParms`. -/
structure NodeOverlay_VxlanMeshParms where
  LoopbackIpamPoolName : String
  OutgoingInterfaceLabel : String
deriving DecidableEq, Repr

/-- The message `controller.NodeOverlay`; `VxlanMeshParms` is a pointer like `MemifParms`. -/
structure NodeOverlay where
  Name : String
  NodeOverlayType : String
  ConnectionType : String
  VxlanMeshParms : Option NodeOverlay_VxlanMeshParms
deriving DecidableEq, Repr

/-- The message `controller.VNFServiceState`: the status of one service. -/
structure VNFServiceState where
  Msg : List String
  RenderedVppAgentEntries : List RenderedVppAgentEntry
deriving DecidableEq, Repr

/-- The fields of `s.ramConfigCache` read by `topology_l2pp.go`. The VNI allocators are held
by pointer, so an allocation is visible to later lookups; `α` is the allocator state. -/
structure CacheType (α : Type) where
  VNFToNodeMap : GoMap String VNFToNodeMap
  Nodes : GoMap String Node
  NodeOverlays : GoMap String NodeOverlay
  NodeOverlayVniAllocators : GoMap String α
deriving DecidableEq, Repr

/-- The receiver `s *Plugin`: the cache, and in `other` everything else the helper methods
can reach (address pools, interface-id and MAC allocators, the open transaction). -/
structure Plugin (α : Type) (χ : Type) where
  ramConfigCache : CacheType α
  other : χ
deriving DecidableEq, Repr

/-- A call made by the embedded functions to a function declared outside the embedded
files, with the arguments that identify it. -/
inductive Call where
  | AppendStatusMsgToVnfService (msg : String)
  | RenderToplogyDirectInterVnfMemifPair (ifType : String)
  | RenderToplogyInterfacePair (vppAgent : String) (connInterface : ConnectionInterface)
  | ConstructXConnect (vppAgent : String) (ifName : String) (peerIfName : String)
  | ConfigTransactionAddVppEntries (vppKVs : List KVType)
  | ConfigTransactionAddVppEntry (vppKV : KVType)
  | AllocateVni (overlay : String)
  | NodeOverlayAllocateVxlanAddress (poolName : String) (node : String)
  | ConstructVxlanInterface (node : String) (ifName : String) (vni : Nat)
      (srcAddr : String) (dstAddr : String)
  | NodeRenderVxlanStaticRoutes (fromNode : String) (toNode : String)
      (srcAddr : String) (dstAddr : String) (outgoingLabel : String)
deriving DecidableEq, Repr

/-- The state threaded through a rendering call: the plugin, the service state `vsState`
points to, and the calls made so far (oldest first). -/
structure Render (α : Type) (χ : Type) where
  plugin : Plugin α χ
  vsState : VNFServiceState
  calls : List Call
deriving DecidableEq, Repr

/-- The constants of package `model` and the functions of this repository that
`topology_l2pp.go` calls but that are declared in other files. Each function is taken as
given: it returns normally, and it reads and writes only what its type shows. -/
structure Env (α : Type) (χ : Type) where
  IfMemifInterVnfConnTypeDirect : String
  IfTypeMemif : String
  NodeOverlayTypeMesh : String
  NodeOverlayConnectionTypeVxlan : String
  findVnfAndInterfaceInVnfList : String → String → List VNF → Option Interface × String
  RenderToplogyDirectInterVnfMemifPair : VNFService → Connection → List (Option Interface) →
    String → Plugin α χ × VNFServiceState → (Plugin α χ × VNFServiceState) × GoError
  RenderToplogyInterfacePair : VNFService → String → ConnectionInterface → Option Interface →
    String → Plugin α χ × VNFServiceState → (Plugin α χ × VNFServiceState) × (String × GoError)
  ConstructXConnect : String → String → String → List KVType
  ConfigTransactionAddVppEntries : List RenderedVppAgentEntry → List KVType → Plugin α χ →
    Plugin α χ × List RenderedVppAgentEntry
  ConfigTransactionAddVppEntry : List RenderedVppAgentEntry → KVType → Plugin α χ →
    Plugin α χ × List RenderedVppAgentEntry
  AllocateVni : α → α × (Nat × GoError)
  NodeOverlayAllocateVxlanAddress : String → String → Plugin α χ →
    Plugin α χ × (String × GoError)
  ConstructVxlanInterface : String → String → Nat → String → String → KVType
  NodeRenderVxlanStaticRoutes : String → String → String → String → String → Plugin α χ →
    Plugin α χ × List RenderedVppAgentEntry

/-! ## Calls into the rest of the plugin -/

section Calls

variable {α χ : Type}

/-- Modelled from the spec: the method `AppendStatusMsgToVnfService(msg, vsState)` is
declared outside the embedded files. It appends one status message to the status of the
owning service. -/
def AppendStatusMsgToVnfService (msg : String) (c : Render α χ) : Render α χ :=
  { c with
    vsState := { c.vsState with Msg := c.vsState.Msg ++ [msg] }
    calls := c.calls ++ [Call.AppendStatusMsgToVnfService msg] }

/-- The call `s.RenderToplogyDirectInterVnfMemifPair(vs, conn, vnfInterfaces, ifType, vsState)`. -/
def callRenderToplogyDirectInterVnfMemifPair (E : Env α χ) (vs : VNFService)
    (conn : Connection) (vnfInterfaces : List (Option Interface)) (ifType : String)
    (c : Render α χ) : GoError × Render α χ :=
  let out := E.RenderToplogyDirectInterVnfMemifPair vs conn vnfInterfaces ifType
    (c.plugin, c.vsState)
  (out.2, { plugin := out.1.1, vsState := out.1.2,
            calls := c.calls ++ [Call.RenderToplogyDirectInterVnfMemifPair ifType] })

/-- The call `s.RenderToplogyInterfacePair(vs, vppAgent, connInterface, vnfInterface, vnfType,
vsState)`, which returns an interface name and an error. -/
def callRenderToplogyInterfacePair (E : Env α χ) (vs : VNFService) (vppAgent : String)
    (connInterface : ConnectionInterface) (vnfInterface : Option Interface) (vnfType : String)
    (c : Render α χ) : (String × GoError) × Render α χ :=
  let out := E.RenderToplogyInterfacePair vs vppAgent connInterface vnfInterface vnfType
    (c.plugin, c.vsState)
  (out.2, { plugin := out.1.1, vsState := out.1.2,
            calls := c.calls ++ [Call.RenderToplogyInterfacePair vppAgent connInterface] })

/-- The statement pair `vppKVs := vppagentapi.ConstructXConnect(vppAgent, a, b)` and
`vsState.RenderedVppAgentEntries = s.ConfigTransactionAddVppEntries(
vsState.RenderedVppAgentEntries, vppKVs)`. -/
def addXConnect (E : Env α χ) (vppAgent : String) (a : String) (b : String)
    (c : Render α χ) : Render α χ :=
  let vppKVs := E.ConstructXConnect vppAgent a b
  let out := E.ConfigTransactionAddVppEntries c.vsState.RenderedVppAgentEntries vppKVs c.plugin
  { plugin := out.1
    vsState := { c.vsState with RenderedVppAgentEntries := out.2 }
    calls := c.calls ++
      [Call.ConstructXConnect vppAgent a b, Call.ConfigTransactionAddVppEntries vppKVs] }

/-- The call `vniAllocator.AllocateVni()` on the allocator of overlay `name`; the allocator
is updated in place. -/
def callAllocateVni (E : Env α χ) (name : String) (vniAllocator : α) (c : Render α χ) :
    (Nat × GoError) × Render α χ :=
  let out := E.AllocateVni vniAllocator
  (out.2,
    { c with
      plugin := { c.plugin with
        ramConfigCache := { c.plugin.ramConfigCache with
          NodeOverlayVniAllocators :=
            GoMap.set c.plugin.ramConfigCache.NodeOverlayVniAllocators name out.1 } }
      calls := c.calls ++ [Call.AllocateVni name] })

/-- The call `s.NodeOverlayAllocateVxlanAddress(poolName, nodeName)`. -/
def callNodeOverlayAllocateVxlanAddress (E : Env α χ) (poolName : String) (node : String)
    (c : Render α χ) : (String × GoError) × Render α χ :=
  let out := E.NodeOverlayAllocateVxlanAddress poolName node c.plugin
  (out.2, { c with plugin := out.1,
                   calls := c.calls ++ [Call.NodeOverlayAllocateVxlanAddress poolName node] })

/-- The statement pair `vppKV := vppagentapi.ConstructVxlanInterface(node, ifName, vni, src,
dst)` and `vsState.RenderedVppAgentEntries = s.ConfigTransactionAddVppEntry(
vsState.RenderedVppAgentEntries, vppKV)`. -/
def addVxlanInterface (E : Env α χ) (node : String) (ifName : String) (vni : Nat)
    (src : String) (dst : String) (c : Render α χ) : Render α χ :=
  let vppKV := E.ConstructVxlanInterface node ifName vni src dst
  let out := E.ConfigTransactionAddVppEntry c.vsState.RenderedVppAgentEntries vppKV c.plugin
  { plugin := out.1
    vsState := { c.vsState with RenderedVppAgentEntries := out.2 }
    calls := c.calls ++
      [Call.ConstructVxlanInterface node ifName vni src dst,
       Call.ConfigTransactionAddVppEntry vppKV] }

/-- The statement pair `renderedEntries := s.NodeRenderVxlanStaticRoutes(fromNode, toNode,
src, dst, label)` and `vsState.RenderedVppAgentEntries = append(
vsState.RenderedVppAgentEntries, renderedEntries...)`. -/
def addVxlanStaticRoutes (E : Env α χ) (fromNode : String) (toNode : String) (src : String)
    (dst : String) (label : String) (c : Render α χ) : Render α χ :=
  let out := E.NodeRenderVxlanStaticRoutes fromNode toNode src dst label c.plugin
  { plugin := out.1
    vsState := { c.vsState with
      RenderedVppAgentEntries := c.vsState.RenderedVppAgentEntries ++ out.2 }
    calls := c.calls ++ [Call.NodeRenderVxlanStaticRoutes fromNode toNode src dst label] }

end Calls

/-! ## `topology_l2pp.go` -/

section Topology

variable {α χ : Type}

/-- Body of the loop at source lines 120-127: an interface whose memif parameters name a
non-empty connection type other than direct overrides `memifConnType`. -/
def sameNodeOverrideBody (E : Env α χ) (vnfInterfaces : List (Option Interface)) (i : Int)
    (memifConnType : String) : Except Fault (Flow String (GoError × Render α χ)) := do
  let p ← sliceGet vnfInterfaces i
  let vnfInterface ← deref p
  match vnfInterface.MemifParms with
  | none => pure (Flow.next memifConnType)
  | some parms =>
    if parms.InterVnfConn ≠ "" ∧ parms.InterVnfConn ≠ E.IfMemifInterVnfConnTypeDirect then
      pure (Flow.next parms.InterVnfConn)
    else
      pure (Flow.next memifConnType)

/-- Body of the loop at source lines 142-150: render the interface of endpoint `i` on node
`vppAgent` and store its name in `xconn[i]`; an error returns from the function. -/
def sameNodeInterfaceBody (E : Env α χ) (vs : VNFService) (vppAgent : String)
    (conn : Connection) (vnfInterfaces : List (Option Interface)) (vnfTypes : List String)
    (i : Int) (st : Arr2 String × Render α χ) :
    Except Fault (Flow (Arr2 String × Render α χ) (GoError × Render α χ)) := do
  let connInterface ← sliceGet conn.Interfaces i
  let vnfInterface ← sliceGet vnfInterfaces i
  let vnfType ← sliceGet vnfTypes i
  let out := callRenderToplogyInterfacePair E vs vppAgent connInterface vnfInterface vnfType st.2
  match out.1.2 with
  | some err => pure (Flow.ret (some err, out.2))
  | none =>
    let xconn ← st.1.set i out.1.1
    pure (Flow.next (xconn, out.2))

/-- Body of the loop at source lines 152-158: cross-connect `xconn[i]` to `xconn[^i&1]`. -/
def sameNodeXConnectBody (E : Env α χ) (vppAgent : String) (xconn : Arr2 String) (i : Int)
    (c : Render α χ) : Except Fault (Flow (Render α χ) (GoError × Render α χ)) := do
  let a ← xconn.get i
  let b ← xconn.get (peer i)
  pure (Flow.next (addXConnect E vppAgent a b c))

/-- Source `renderToplogySegmentL2PPSameNode`, lines 105-162. -/
def renderToplogySegmentL2PPSameNode (E : Env α χ) (vs : VNFService) (vppAgent : String)
    (conn : Connection) (_connIndex : Nat) (vnfInterfaces : List (Option Interface))
    (vnfTypes : List String) (c : Render α χ) : Except Fault (GoError × Render α χ) := do
  let r1 ← for2 (sameNodeOverrideBody E vnfInterfaces) E.IfMemifInterVnfConnTypeDirect
  match r1 with
  | Flow.ret r => pure r
  | Flow.next memifConnType =>
    let p0 ← sliceGet vnfInterfaces 0
    let if0 ← deref p0
    let p1 ← sliceGet vnfInterfaces 1
    let if1 ← deref p1
    if if0.IfType = if1.IfType ∧ if0.IfType = E.IfTypeMemif ∧
        memifConnType = E.IfMemifInterVnfConnTypeDirect then
      let out := callRenderToplogyDirectInterVnfMemifPair E vs conn vnfInterfaces E.IfTypeMemif c
      match out.1 with
      | some err => pure (some err, out.2)
      | none => pure (none, out.2)
    else
      let r2 ← for2 (sameNodeInterfaceBody E vs vppAgent conn vnfInterfaces vnfTypes)
        (Arr2.mk "" "", c)
      match r2 with
      | Flow.ret r => pure r
      | Flow.next st =>
        let r3 ← for2 (sameNodeXConnectBody E vppAgent st.1) st.2
        match r3 with
        | Flow.ret r => pure r
        | Flow.next c3 => pure (none, c3)

/-- The status text shared by the failure paths of the inter-node renderer:
`"vnf-service: %s, conn: %d, %s/%s to %s/%s overlay: %s"` followed by `tail`. -/
def overlayStatusMsg (vs : VNFService) (connIndex : Nat) (conn : Connection)
    (nodeOverlay : NodeOverlay) (tail : String) : Except Fault String := do
  let i0 ← sliceGet conn.Interfaces 0
  let i1 ← sliceGet conn.Interfaces 1
  pure ("vnf-service: " ++ vs.Name ++ ", conn: " ++ toString connIndex ++ ", " ++
    i0.Vnf ++ "/" ++ i0.Interface ++ " to " ++ i1.Vnf ++ "/" ++ i1.Interface ++
    " overlay: " ++ nodeOverlay.Name ++ tail)

/-- Record `msg` on the service and return it as the error: the statement pair
`s.AppendStatusMsgToVnfService(msg, vsState)` and `return fmt.Errorf(msg)`. -/
def failWith (msg : String) (c : Render α χ) : GoError × Render α χ :=
  (some msg, AppendStatusMsgToVnfService msg c)

/-- Body of the loop at source lines 177-185: render the interface of endpoint `i` on its
own node `v2n[i].Node` and store its name in `xconn[0][i]`. -/
def interNodeInterfaceBody (E : Env α χ) (vs : VNFService) (conn : Connection)
    (vnfInterfaces : List (Option Interface)) (v2n : Arr2 VNFToNodeMap)
    (vnfTypes : List String) (i : Int) (st : Arr2 String × Render α χ) :
    Except Fault (Flow (Arr2 String × Render α χ) (GoError × Render α χ)) := do
  let m ← v2n.get i
  let connInterface ← sliceGet conn.Interfaces i
  let vnfInterface ← sliceGet vnfInterfaces i
  let vnfType ← sliceGet vnfTypes i
  let out := callRenderToplogyInterfacePair E vs m.Node connInterface vnfInterface vnfType st.2
  match out.1.2 with
  | some err => pure (Flow.ret (some err, out.2))
  | none =>
    let xconn ← st.1.set i out.1.1
    pure (Flow.next (xconn, out.2))

/-- Body of the loop at source lines 223-275: name the tunnel interface of node
`v2n[i].Node`, allocate both tunnel addresses, construct the tunnel interface and render
the static routes. -/
def interNodeTunnelBody (E : Env α χ) (vs : VNFService) (conn : Connection) (connIndex : Nat)
    (nodeOverlay : NodeOverlay) (v2n : Arr2 VNFToNodeMap) (vni : Nat) (i : Int)
    (st : Arr2 String × Render α χ) :
    Except Fault (Flow (Arr2 String × Render α χ) (GoError × Render α χ)) := do
  let src := i
  let dst := peer i
  let nSrc ← v2n.get src
  let cSrc ← sliceGet conn.Interfaces src
  let nDst ← v2n.get dst
  let cDst ← sliceGet conn.Interfaces dst
  let ifName := "IF_VXLAN_L2PP_FROM_" ++ nSrc.Node ++ "_" ++ cSrc.Vnf ++ "_" ++ cSrc.Interface ++
    "_TO_" ++ nDst.Node ++ "_" ++ cDst.Vnf ++ "_" ++ cDst.Interface ++
    "_VSRVC_" ++ vs.Name ++ "_CONN_" ++ toString connIndex ++ "_VNI_" ++ toString vni
  let xconn ← st.1.set i ifName
  let parms ← deref nodeOverlay.VxlanMeshParms
  let nI ← v2n.get i
  let a1 := callNodeOverlayAllocateVxlanAddress E parms.LoopbackIpamPoolName nI.Node st.2
  match a1.1.2 with
  | some err =>
    let msg ← overlayStatusMsg vs connIndex conn nodeOverlay (", " ++ err)
    pure (Flow.ret (failWith msg a1.2))
  | none =>
    let nP ← v2n.get (peer i)
    let a2 := callNodeOverlayAllocateVxlanAddress E parms.LoopbackIpamPoolName nP.Node a1.2
    match a2.1.2 with
    | some err =>
      let msg ← overlayStatusMsg vs connIndex conn nodeOverlay (" " ++ err)
      pure (Flow.ret (failWith msg a2.2))
    | none =>
      let c3 := addVxlanInterface E nI.Node ifName vni a1.1.1 a2.1.1 a2.2
      let c4 := addVxlanStaticRoutes E nI.Node nP.Node a1.1.1 a2.1.1
        parms.OutgoingInterfaceLabel c3
      pure (Flow.next (xconn, c4))

/-- Body of the loop at source lines 278-282: on node `v2n[i].Node`, cross-connect the
endpoint interface `xconn[0][i]` and the tunnel interface `xconn[1][i]`. -/
def interNodeXConnectBody (E : Env α χ) (v2n : Arr2 VNFToNodeMap) (xconn0 : Arr2 String)
    (xconn1 : Arr2 String) (i : Int) (c : Render α χ) :
    Except Fault (Flow (Render α χ) (GoError × Render α χ)) := do
  let n ← v2n.get i
  let a ← xconn0.get i
  let b ← xconn1.get i
  pure (Flow.next (addXConnect E n.Node a b c))

/-- Source `renderToplogySegmentL2PPInterNode`, lines 165-285. -/
def renderToplogySegmentL2PPInterNode (E : Env α χ) (vs : VNFService) (conn : Connection)
    (connIndex : Nat) (vnfInterfaces : List (Option Interface)) (nodeOverlay : NodeOverlay)
    (v2n : Arr2 VNFToNodeMap) (vnfTypes : List String) (c : Render α χ) :
    Except Fault (GoError × Render α χ) := do
  let r1 ← for2 (interNodeInterfaceBody E vs conn vnfInterfaces v2n vnfTypes) (Arr2.mk "" "", c)
  match r1 with
  | Flow.ret r => pure r
  | Flow.next st1 =>
    if nodeOverlay.NodeOverlayType ≠ E.NodeOverlayTypeMesh ∧
        nodeOverlay.ConnectionType ≠ E.NodeOverlayConnectionTypeVxlan then
      let msg ← overlayStatusMsg vs connIndex conn nodeOverlay " type not implemented"
      pure (failWith msg st1.2)
    else
      match GoMap.get st1.2.plugin.ramConfigCache.NodeOverlayVniAllocators nodeOverlay.Name with
      | none =>
        let msg ← overlayStatusMsg vs connIndex conn nodeOverlay " out of vni\x27s"
        pure (failWith msg st1.2)
      | some vniAllocator =>
        let v := callAllocateVni E nodeOverlay.Name vniAllocator st1.2
        match v.1.2 with
        | some _ =>
          let msg ← overlayStatusMsg vs connIndex conn nodeOverlay " out of vni\x27s"
          pure (failWith msg v.2)
        | none =>
          let r2 ← for2 (interNodeTunnelBody E vs conn connIndex nodeOverlay v2n v.1.1)
            (Arr2.mk "" "", v.2)
          match r2 with
          | Flow.ret r => pure r
          | Flow.next st2 =>
            let r3 ← for2 (interNodeXConnectBody E v2n st1.1 st2.1) st2.2
            match r3 with
            | Flow.ret r => pure r
            | Flow.next c3 => pure (none, c3)

/-- The local variables of `RenderTopologyL2PP` that the loop at source lines 40-64 fills. -/
structure Resolved where
  v2n : Arr2 VNFToNodeMap
  vnfInterfaces : List (Option Interface)
  vnfTypes : List String
  allVnfsAssignedToNodes : Bool
deriving DecidableEq, Repr

/-- The locals as declared at source lines 31-35: zero values, and the flag set. -/
def Resolved.init : Resolved :=
  { v2n := Arr2.mk (VNFToNodeMap.mk "" "") (VNFToNodeMap.mk "" "")
    vnfInterfaces := [none, none]
    vnfTypes := ["", ""]
    allVnfsAssignedToNodes := true }

/-- One iteration of the loop at source lines 40-64, for the endpoint at index `i`. -/
def resolveEndpoint (E : Env α χ) (vnfs : List VNF) (i : Nat) (connInterface : ConnectionInterface)
    (st : Resolved × Render α χ) : Except Fault (Resolved × Render α χ) :=
  let found := GoMap.get st.2.plugin.ramConfigCache.VNFToNodeMap connInterface.Vnf
  let v := found.getD (VNFToNodeMap.mk "" "")
  if found.isNone ∨ v.Node = "" then
    let msg := "connection segment: " ++ connInterface.Vnf ++ "/" ++ connInterface.Interface ++
      ", vnf not mapped to a node in vnf_to_node_map"
    .ok ({ st.1 with allVnfsAssignedToNodes := false }, AppendStatusMsgToVnfService msg st.2)
  else if (GoMap.get st.2.plugin.ramConfigCache.Nodes v.Node).isNone then
    let msg := "connection segment: " ++ connInterface.Vnf ++ "/" ++ connInterface.Interface ++
      ", vnf references non existant host: " ++ v.Node
    .ok ({ st.1 with allVnfsAssignedToNodes := false }, AppendStatusMsgToVnfService msg st.2)
  else do
    let v2n ← st.1.v2n.set i v
    let r := E.findVnfAndInterfaceInVnfList connInterface.Vnf connInterface.Interface vnfs
    pure ({ st.1 with v2n := v2n, vnfInterfaces := st.1.vnfInterfaces.set i r.1,
                      vnfTypes := st.1.vnfTypes.set i r.2 }, st.2)

/-- The loop `for i, connInterface := range conn.Interfaces` at source lines 40-64, from
index `i` on. -/
def resolveEndpoints (E : Env α χ) (vnfs : List VNF) :
    List ConnectionInterface → Nat → Resolved × Render α χ → Except Fault (Resolved × Render α χ)
  | [], _, st => .ok st
  | connInterface :: rest, i, st =>
    match resolveEndpoint E vnfs i connInterface st with
    | .error f => .error f
    | .ok st1 => resolveEndpoints E vnfs rest (i + 1) st1

/-- Source `RenderTopologyL2PP`, lines 72-101, entered once every endpoint is resolved:
same-node rendering, or the overlay lookup followed by inter-node rendering. -/
def renderResolved (E : Env α χ) (vs : VNFService) (conn : Connection) (connIndex : Nat)
    (r : Resolved) (c : Render α χ) : Except Fault (GoError × Render α χ) :=
  if r.v2n.e0.Node = r.v2n.e1.Node then
    renderToplogySegmentL2PPSameNode E vs r.v2n.e0.Node conn connIndex r.vnfInterfaces
      r.vnfTypes c
  else if conn.NodeOverlay = "" then do
    let i0 ← sliceGet conn.Interfaces 0
    let i1 ← sliceGet conn.Interfaces 1
    let msg := "vnf-service: " ++ vs.Name ++ ", " ++ i0.Vnf ++ "/" ++ i0.Interface ++ " to " ++
      i1.Vnf ++ "/" ++ i1.Interface ++ " no node overlay specified"
    pure (failWith msg c)
  else
    match GoMap.get c.plugin.ramConfigCache.NodeOverlays conn.NodeOverlay with
    | none => do
      let i0 ← sliceGet conn.Interfaces 0
      let i1 ← sliceGet conn.Interfaces 1
      let msg := "vnf-service: " ++ vs.Name ++ ", " ++ i0.Vnf ++ "/" ++ i0.Interface ++ " to " ++
        i1.Vnf ++ "/" ++ i1.Interface ++ " referencing a missing node overlay"
      pure (failWith msg c)
    | some nodeOverlay =>
      renderToplogySegmentL2PPInterNode E vs conn connIndex r.vnfInterfaces nodeOverlay r.v2n
        r.vnfTypes c

/-- Source `RenderTopologyL2PP`, lines 27-102. -/
def RenderTopologyL2PP (E : Env α χ) (vs : VNFService) (vnfs : List VNF) (conn : Connection)
    (connIndex : Nat) (c : Render α χ) : Except Fault (GoError × Render α χ) :=
  match resolveEndpoints E vnfs conn.Interfaces 0 (Resolved.init, c) with
  | .error f => .error f
  | .ok st =>
    if !st.1.allVnfsAssignedToNodes then
      .ok (some "Not all vnfs in this connection are mapped to nodes", st.2)
    else
      renderResolved E vs conn connIndex st.1 st.2

end Topology

/-! ## `plugin_impl_controller.go`: reload of persisted status -/

section Reload

variable {χ : Type}

/-- The message `controller.InterfaceStatus`, as far as `PreProcessEntityStatus` reads it;
`MemifID` and `MacAddrID` are `uint32` values that are only compared and copied. -/
structure InterfaceStatus where
  Name : String
  MemifID : Nat
  MacAddrID : Nat
deriving DecidableEq, Repr

/-- The status of a network node or of a network service (`nn.Status`, `ns.Status`): the
rendered entries, a map listed in the order in which it is ranged over, and the interface
statuses. -/
structure EntityStatus where
  RenderedVppAgentEntries : GoMap String RenderedVppAgentEntry
  Interfaces : List InterfaceStatus
deriving DecidableEq, Repr

/-- A network node or a network service as read by `PreProcessEntityStatus`: the name
`Metadata.Name` and the status pointer, `none` being nil. -/
structure StatusEntity where
  Name : String
  Status : Option EntityStatus
deriving DecidableEq, Repr

/-- The message `controller.IPAMPoolStatus`; `Addresses` is a map, `none` being nil. -/
structure IPAMPoolStatus where
  Addresses : Option (GoMap String String)
deriving DecidableEq, Repr

/-- An address pool of `s.IpamPoolMgr.ipamPoolCache`; `Status` is a pointer. -/
structure IPAMPool where
  Status : Option IPAMPoolStatus
deriving DecidableEq, Repr

/-- The state `PreProcessEntityStatus` works on: the pool cache, the fields
`InterfaceStates` and `VppEntries` of `ramConfigCache`, the counters
`MemifIDAllocator.MemifID` and `MacAddrAllocator.MacAddrID`, and in `other` the rest of
the plugin. -/
structure Controller (χ : Type) where
  ipamPoolCache : GoMap String IPAMPool
  InterfaceStates : GoMap String InterfaceStatus
  VppEntries : GoMap String KVType
  MemifID : Nat
  MacAddrID : Nat
  other : χ
deriving DecidableEq, Repr

/-- The constants and functions of this repository that `PreProcessEntityStatus` uses but
that are declared in other files. `ReadFromEtcd key type` stands for
`vppagent.NewKVEntry(key, type)` followed by `ReadFromEtcd(s.db)`: it yields the entry, the
`found` flag and the error. The other two may change any part of the state. -/
structure ReloadEnv (χ : Type) where
  IPAMPoolScopeNode : String
  IPAMPoolScopeNetworkService : String
  EntityCreate : String → String → Controller χ → Controller χ
  ReadFromEtcd : String → String → KVType × Bool × GoError
  UpdateRamCacheAllocatorsForInterfaceStatus : InterfaceStatus → String → Controller χ →
    Controller χ

/-- Source lines 287-295: a pool without status gets one with an empty address map, and a
status without address map gets an empty one. -/
def initPoolStatus (ipamPool : IPAMPool) : IPAMPool :=
  match ipamPool.Status with
  | none => { Status := some { Addresses := some [] } }
  | some status =>
    match status.Addresses with
    | none => { Status := some { Addresses := some [] } }
    | some _ => ipamPool

/-- Source `LoadVppAgentEntriesFromRenderedVppAgentEntries`, lines 356-374: read every entry
from the store, cache the ones found, stop at the first read error. -/
def LoadVppAgentEntriesFromRenderedVppAgentEntries (E : ReloadEnv χ) :
    List (String × RenderedVppAgentEntry) → Controller χ → Controller χ × GoError
  | [], st => (st, none)
  | (_, vppAgentEntry) :: rest, st =>
    let r := E.ReadFromEtcd vppAgentEntry.VppAgentKey vppAgentEntry.VppAgentType
    match r.2.2 with
    | some err => (st, some err)
    | none =>
      if r.2.1 then
        LoadVppAgentEntriesFromRenderedVppAgentEntries E rest
          { st with VppEntries := GoMap.set st.VppEntries r.1.VppKey r.1 }
      else
        LoadVppAgentEntriesFromRenderedVppAgentEntries E rest st

/-- Body of the loops at source lines 312-321 and 338-347: record the interface status,
raise each counter to the persisted identifier when that one is larger, and update the other
allocators. -/
def recordInterfaceStatus (E : ReloadEnv χ) (entityName : String) (st : Controller χ)
    (ifStatus : InterfaceStatus) : Controller χ :=
  let st1 := { st with InterfaceStates := GoMap.set st.InterfaceStates ifStatus.Name ifStatus }
  let st2 := if ifStatus.MemifID > st1.MemifID then { st1 with MemifID := ifStatus.MemifID }
    else st1
  let st3 := if ifStatus.MacAddrID > st2.MacAddrID then
      { st2 with MacAddrID := ifStatus.MacAddrID }
    else st2
  E.UpdateRamCacheAllocatorsForInterfaceStatus ifStatus entityName st3

/-- Body of the loops at source lines 300-323 and 327-350, for one node or one service. -/
def preProcessEntity (E : ReloadEnv χ) (scope : String) (st : Controller χ)
    (entity : StatusEntity) : Controller χ × GoError :=
  let st1 := E.EntityCreate entity.Name scope st
  match entity.Status with
  | none => (st1, none)
  | some status =>
    let loaded :=
      if status.RenderedVppAgentEntries.length ≠ 0 then
        LoadVppAgentEntriesFromRenderedVppAgentEntries E status.RenderedVppAgentEntries st1
      else (st1, none)
    match loaded.2 with
    | some err => (loaded.1, some err)
    | none =>
      if status.Interfaces.length ≠ 0 then
        (status.Interfaces.foldl (recordInterfaceStatus E entity.Name) loaded.1, none)
      else (loaded.1, none)

/-- The loops over `networkNodeCache` and over `networkServiceCache`, given the order in
which the map is ranged over; a load error returns from the function. -/
def preProcessEntities (E : ReloadEnv χ) (scope : String) :
    List StatusEntity → Controller χ → Controller χ × GoError
  | [], st => (st, none)
  | entity :: rest, st =>
    let r := preProcessEntity E scope st entity
    match r.2 with
    | some err => (r.1, some err)
    | none => preProcessEntities E scope rest r.1

/-- Source `PreProcessEntityStatus`, lines 282-353; `nodes` and `services` list the two
caches in the order in which they are ranged over. -/
def PreProcessEntityStatus (E : ReloadEnv χ) (nodes : List StatusEntity)
    (services : List StatusEntity) (st : Controller χ) : Controller χ × GoError :=
  let st0 := { st with
    ipamPoolCache := st.ipamPoolCache.map (fun kv => (kv.1, initPoolStatus kv.2)) }
  let r := preProcessEntities E E.IPAMPoolScopeNode nodes st0
  match r.2 with
  | some err => (r.1, some err)
  | none => preProcessEntities E E.IPAMPoolScopeNetworkService services r.1

end Reload

/-! ## Vocabulary of the statements -/

section Vocabulary

variable {α χ : Type}

/-- The calls made between state `c` and a later state `d`. -/
def callsBetween (c d : Render α χ) : List Call :=
  d.calls.drop c.calls.length

/-- An endpoint is unresolved when its VNF is absent from the VNF-to-node map, is mapped to
the empty node name, or is mapped to a node that is not in the node cache. -/
def endpointUnresolved (p : Plugin α χ) (connInterface : ConnectionInterface) : Bool :=
  match GoMap.get p.ramConfigCache.VNFToNodeMap connInterface.Vnf with
  | none => true
  | some v => decide (v.Node = "") || (GoMap.get p.ramConfigCache.Nodes v.Node).isNone

/-- An interface overrides the inter-VNF connection type when its memif parameters are
present and name a non-empty type other than direct. -/
def overridesInterVnfConn (E : Env α χ) (vnfInterface : Interface) : Bool :=
  match vnfInterface.MemifParms with
  | none => false
  | some parms =>
    decide (parms.InterVnfConn ≠ "") && decide (parms.InterVnfConn ≠ E.IfMemifInterVnfConnTypeDirect)

/-- Whether the call appends a status message to the service. -/
def Call.isStatusMsg : Call → Bool
  | .AppendStatusMsgToVnfService _ => true
  | _ => false

/-- The node, name and VNI of the tunnel interface a call constructs, if it constructs one. -/
def Call.tunnelInterface : Call → Option (String × String × Nat)
  | .ConstructVxlanInterface node ifName vni _ _ => some (node, ifName, vni)
  | _ => none

/-- The tunnel interface name built at source lines 228-231 from the source node and
endpoint, the destination node and endpoint, the service name, the connection index and the
VNI. -/
def tunnelIfName (vs : VNFService) (connIndex : Nat) (vni : Nat) (srcNode : String)
    (srcIf : ConnectionInterface) (dstNode : String) (dstIf : ConnectionInterface) : String :=
  "IF_VXLAN_L2PP_FROM_" ++ srcNode ++ "_" ++ srcIf.Vnf ++ "_" ++ srcIf.Interface ++
    "_TO_" ++ dstNode ++ "_" ++ dstIf.Vnf ++ "_" ++ dstIf.Interface ++
    "_VSRVC_" ++ vs.Name ++ "_CONN_" ++ toString connIndex ++ "_VNI_" ++ toString vni

/-- The plugin once the VNI allocator of overlay `name` has moved to state `al`. -/
def withVniAllocator (p : Plugin α χ) (name : String) (al : α) : Plugin α χ :=
  { p with
    ramConfigCache := { p.ramConfigCache with
      NodeOverlayVniAllocators := GoMap.set p.ramConfigCache.NodeOverlayVniAllocators name al } }

/-- The state after one pass of the tunnel loop (source lines 235-274) in which both
address allocations succeed: the address of node `own`, then the address of node `peerNode`,
the tunnel interface on `own` and the static routes from `own` to `peerNode`. -/
def tunnelStep (E : Env α χ) (pool : String) (label : String) (own : String)
    (peerNode : String) (ifName : String) (vni : Nat) (c : Render α χ) : Render α χ :=
  let a1 := callNodeOverlayAllocateVxlanAddress E pool own c
  let a2 := callNodeOverlayAllocateVxlanAddress E pool peerNode a1.2
  addVxlanStaticRoutes E own peerNode a1.1.1 a2.1.1 label
    (addVxlanInterface E own ifName vni a1.1.1 a2.1.1 a2.2)

/-- In one pass of the tunnel loop started in state `c`, an address allocation fails: the
one for node `own`, or the one for node `peerNode` that follows it. -/
def tunnelAddressFails (E : Env α χ) (pool : String) (own : String) (peerNode : String)
    (c : Render α χ) : Prop :=
  (callNodeOverlayAllocateVxlanAddress E pool own c).1.2 ≠ none ∨
  (callNodeOverlayAllocateVxlanAddress E pool peerNode
    (callNodeOverlayAllocateVxlanAddress E pool own c).2).1.2 ≠ none

/-- The interface statuses persisted with the given nodes and services. -/
def persistedInterfaces (entities : List StatusEntity) : List InterfaceStatus :=
  entities.flatMap (fun entity =>
    match entity.Status with
    | none => []
    | some status => status.Interfaces)

/-- The maximum of `base` and the identifiers `ids`. -/
def highWater (base : Nat) (ids : List Nat) : Nat :=
  ids.foldl max base

/-- A helper leaves both identifier counters as they are. -/
def KeepsCounters (f : Controller χ → Controller χ) : Prop :=
  ∀ st, (f st).MemifID = st.MemifID ∧ (f st).MacAddrID = st.MacAddrID

end Vocabulary

/-! ## Sample data -/

/-- Dataplane object `A` with payload 1. -/
def objA1 : KVType := { VppKey := "A", VppEntryType := "interface", payload := 1 }

/-- Dataplane object `B` with payload 2. -/
def objB2 : KVType := { VppKey := "B", VppEntryType := "interface", payload := 2 }

/-- Dataplane object `C` with payload 3. -/
def objC3 : KVType := { VppKey := "C", VppEntryType := "interface", payload := 3 }

/-- The package state before any pass, with the render cache holding `A:1` and `B:2`. -/
def idleWithAB : TxnState :=
  { VppEntries := [("A", objA1), ("B", objB2)], beforeMap := none, afterMap := none,
    level := 0, configMutex := false, store := [] }

/-- A package state at the end of a pass whose before set at level 0 is `A:1, B:2` and
whose after set at level 0 is `A:1, C:3`. -/
def passABtoAC : TxnState :=
  { VppEntries := [("A", objA1), ("B", objB2)]
    beforeMap := some [(0, some [("A", objA1), ("B", objB2)])]
    afterMap := some [(0, some [("A", objA1), ("C", objC3)])]
    level := 0, configMutex := true, store := [] }

/-- A whole pass driven through the functions of `rendertxn.go`: Start, add `A:1`, add
`C:3`, End. -/
def passAddAC (s : TxnState) : Except Fault (TxnState × GoError) := do
  let s1 ← RenderTxnConfigStart s
  let r2 := RenderTxnAddVppEntryToTxn s1 [] objA1
  let r3 := RenderTxnAddVppEntryToTxn r2.1 r2.2 objC3
  RenderTxnConfigEnd r3.1

/-- A package state at the end of a pass whose before and after maps both hold `A:1` at
level 0, with one earlier write in the store log. -/
def unchangedPassA : TxnState :=
  { VppEntries := [("A", objA1)]
    beforeMap := some [(0, some [("A", objA1)])]
    afterMap := some [(0, some [("A", objA1)])]
    level := 0, configMutex := true, store := [StoreOp.put "A" objA1] }

/-- A package state inside a pass at nesting level 1, whose after set holds `A:1` at
level 0 and `B:2` at level 1. -/
def nestedAB : TxnState :=
  { VppEntries := []
    beforeMap := some [(1, some []), (0, some [])]
    afterMap := some [(1, some [("B", objB2)]), (0, some [("A", objA1)])]
    level := 1, configMutex := true, store := [] }

/-- A sample environment: the usual constants of package `model`, and simple stand-ins for
the helper methods (names built from their arguments, a counting VNI allocator). -/
def demoEnv : Env Nat Unit :=
  { IfMemifInterVnfConnTypeDirect := "direct"
    IfTypeMemif := "memif"
    NodeOverlayTypeMesh := "mesh"
    NodeOverlayConnectionTypeVxlan := "vxlan"
    findVnfAndInterfaceInVnfList := fun vnfName ifName vnfs =>
      match vnfs.find? (fun v => decide (v.Name = vnfName)) with
      | none => (none, "")
      | some v => (v.Interfaces.find? (fun x => decide (x.Name = ifName)), v.VnfType)
    RenderToplogyDirectInterVnfMemifPair := fun _ _ _ ifType st =>
      ((st.1, { st.2 with RenderedVppAgentEntries :=
          st.2.RenderedVppAgentEntries ++ [RenderedVppAgentEntry.mk "memif-pair" ifType] }), none)
    RenderToplogyInterfacePair := fun _ vppAgent ci _ _ st =>
      ((st.1, { st.2 with RenderedVppAgentEntries :=
          st.2.RenderedVppAgentEntries ++
            [RenderedVppAgentEntry.mk (vppAgent ++ "/" ++ ci.Vnf ++ "/" ++ ci.Interface) "if"] }),
        ("IF_" ++ ci.Vnf ++ "_" ++ ci.Interface, none))
    ConstructXConnect := fun vppAgent a b =>
      [KVType.mk (vppAgent ++ "/xconnect/" ++ a) ("xconnect to " ++ b) 0]
    ConfigTransactionAddVppEntries := fun entries kvs p =>
      (p, entries ++ kvs.map (fun kv => RenderedVppAgentEntry.mk kv.VppKey kv.VppEntryType))
    ConfigTransactionAddVppEntry := fun entries kv p =>
      (p, entries ++ [RenderedVppAgentEntry.mk kv.VppKey kv.VppEntryType])
    AllocateVni := fun n => (n + 1, (n + 1, none))
    NodeOverlayAllocateVxlanAddress := fun pool node p => (p, (pool ++ "@" ++ node, none))
    ConstructVxlanInterface := fun node ifName vni _ _ =>
      KVType.mk (node ++ "/interface/" ++ ifName) "vxlan" vni
    NodeRenderVxlanStaticRoutes := fun fromNode toNode _ _ _ p =>
      (p, [RenderedVppAgentEntry.mk (fromNode ++ "/route/" ++ toNode) "route"]) }

/-- A memif interface with no memif parameters. -/
def memifPort1 : Interface := { Name := "port1", IfType := "memif", MemifParms := none }

/-- A memif interface whose memif parameters leave the connection type empty. -/
def memifPort2 : Interface :=
  { Name := "port2", IfType := "memif", MemifParms := some { InterVnfConn := "" } }

/-- A memif interface that overrides the inter-VNF connection type to vswitch. -/
def memifVswitchPort : Interface :=
  { Name := "port3", IfType := "memif", MemifParms := some { InterVnfConn := "vswitch" } }

/-- A connection between `vnf1/port1` and `vnf2/port2` that names no overlay. -/
def demoConn : Connection :=
  { Interfaces := [{ Vnf := "vnf1", Interface := "port1" }, { Vnf := "vnf2", Interface := "port2" }]
    NodeOverlay := "" }

/-- A connection between `vnf1/port1` and `vnf2/port3` that names no overlay. -/
def demoConnVswitch : Connection :=
  { Interfaces := [{ Vnf := "vnf1", Interface := "port1" }, { Vnf := "vnf2", Interface := "port3" }]
    NodeOverlay := "" }

/-- A plugin whose cache knows node `node1`, with `vnf1` and `vnf2` placed on it, `vnf3`
placed on the unknown node `node9`, and `vnf4` not placed at all. -/
def demoPlugin : Plugin Nat Unit :=
  { ramConfigCache :=
      { VNFToNodeMap := [("vnf1", { Vnf := "vnf1", Node := "node1" }),
                         ("vnf2", { Vnf := "vnf2", Node := "node1" }),
                         ("vnf3", { Vnf := "vnf3", Node := "node9" })]
        Nodes := [("node1", { Name := "node1" })]
        NodeOverlays := []
        NodeOverlayVniAllocators := [] }
    other := () }

/-- A rendering state over `demoPlugin` with one rendered entry and no status message. -/
def demoRender : Render Nat Unit :=
  { plugin := demoPlugin
    vsState := { Msg := [], RenderedVppAgentEntries := [RenderedVppAgentEntry.mk "old" "if"] }
    calls := [] }

/-- The service state after the sample interface rendering of `vnf1/port1` on `node1`. -/
def demoStateAfterPort1 : VNFServiceState :=
  { Msg := []
    RenderedVppAgentEntries :=
      [RenderedVppAgentEntry.mk "old" "if", RenderedVppAgentEntry.mk "node1/vnf1/port1" "if"] }

/-- The service state after the sample interface rendering of `vnf2/port3` on `node1`. -/
def demoStateAfterPort3 : VNFServiceState :=
  { Msg := []
    RenderedVppAgentEntries :=
      [RenderedVppAgentEntry.mk "old" "if", RenderedVppAgentEntry.mk "node1/vnf1/port1" "if",
       RenderedVppAgentEntry.mk "node1/vnf2/port3" "if"] }

/-- A connection between `vnf3/port1` (placed on an unknown node) and `vnf4/port1` (not
placed). -/
def demoConnUnplaced : Connection :=
  { Interfaces := [{ Vnf := "vnf3", Interface := "port1" }, { Vnf := "vnf4", Interface := "port1" }]
    NodeOverlay := "" }

/-- A plugin whose cache knows the nodes `node1` and `node2` and the overlay `overlay1` (a
VXLAN mesh with a VNI allocator that has handed out 4 identifiers); `vnf1` is placed on
`node1` and `vnf5` on `node2`. -/
def demoPluginTwoNodes : Plugin Nat Unit :=
  { ramConfigCache :=
      { VNFToNodeMap := [("vnf1", { Vnf := "vnf1", Node := "node1" }),
                         ("vnf5", { Vnf := "vnf5", Node := "node2" })]
        Nodes := [("node1", { Name := "node1" }), ("node2", { Name := "node2" })]
        NodeOverlays :=
          [("overlay1",
            { Name := "overlay1", NodeOverlayType := "mesh", ConnectionType := "vxlan"
              VxlanMeshParms := some { LoopbackIpamPoolName := "pool1"
                                       OutgoingInterfaceLabel := "uplink" } })]
        NodeOverlayVniAllocators := [("overlay1", 4)] }
    other := () }

/-- A rendering state over `demoPluginTwoNodes` with no rendered entry and no status
message. -/
def demoRenderTwoNodes : Render Nat Unit :=
  { plugin := demoPluginTwoNodes
    vsState := { Msg := [], RenderedVppAgentEntries := [] }
    calls := [] }

/-- A connection between `vnf1/port1` and `vnf5/port1` that names no overlay. -/
def demoConnNoOverlay : Connection :=
  { Interfaces := [{ Vnf := "vnf1", Interface := "port1" }, { Vnf := "vnf5", Interface := "port1" }]
    NodeOverlay := "" }

/-- A connection between `vnf1/port1` and `vnf5/port1` over `overlay1`. -/
def demoConnOverlay1 : Connection :=
  { Interfaces := [{ Vnf := "vnf1", Interface := "port1" }, { Vnf := "vnf5", Interface := "port1" }]
    NodeOverlay := "overlay1" }

/-- The overlay `overlay1` of `demoPluginTwoNodes`: a VXLAN mesh over address pool `pool1`. -/
def demoOverlay1 : NodeOverlay :=
  { Name := "overlay1", NodeOverlayType := "mesh", ConnectionType := "vxlan"
    VxlanMeshParms := some { LoopbackIpamPoolName := "pool1", OutgoingInterfaceLabel := "uplink" } }

/-- An overlay named `overlay1` whose type is not mesh but whose connection type is VXLAN. -/
def demoOverlayHub : NodeOverlay :=
  { Name := "overlay1", NodeOverlayType := "hub_and_spoke", ConnectionType := "vxlan"
    VxlanMeshParms := some { LoopbackIpamPoolName := "pool1", OutgoingInterfaceLabel := "uplink" } }

/-- The mesh parameters of the sample overlays. -/
def demoMeshParms : NodeOverlay_VxlanMeshParms :=
  { LoopbackIpamPoolName := "pool1", OutgoingInterfaceLabel := "uplink" }

/-- The address the sample environment allocates from `pool1` for a node. -/
def demoAddr (node : String) : String := "pool1" ++ "@" ++ node

/-- The service state after the sample interface rendering of `vnf1/port1` on `node1`,
starting without rendered entries. -/
def demoStateInter1 : VNFServiceState :=
  { Msg := [], RenderedVppAgentEntries := [RenderedVppAgentEntry.mk "node1/vnf1/port1" "if"] }

/-- The service state after the sample interface rendering of `vnf5/port1` on `node2`. -/
def demoStateInter2 : VNFServiceState :=
  { Msg := []
    RenderedVppAgentEntries :=
      [RenderedVppAgentEntry.mk "node1/vnf1/port1" "if",
       RenderedVppAgentEntry.mk "node2/vnf5/port1" "if"] }

/-- The state after the sample interface renderings of `vnf1/port1` on `node1` and of
`vnf5/port1` on `node2`, started in state `c`. -/
def demoAfterInterfaces (c : Render Nat Unit) : Render Nat Unit :=
  { plugin := c.plugin
    vsState :=
      { Msg := c.vsState.Msg
        RenderedVppAgentEntries :=
          (c.vsState.RenderedVppAgentEntries ++
            [RenderedVppAgentEntry.mk "node1/vnf1/port1" "if"]) ++
            [RenderedVppAgentEntry.mk "node2/vnf5/port1" "if"] }
    calls := c.calls ++
      [Call.RenderToplogyInterfacePair "node1" (ConnectionInterface.mk "vnf1" "port1"),
       Call.RenderToplogyInterfacePair "node2" (ConnectionInterface.mk "vnf5" "port1")] }

/-- The state in which the sample rendering of `vnf1/port1` on `node1` to `vnf5/port1` on
`node2` over an overlay named `overlay1` ends when started in state `c` with the VNI
allocator at `al`: both interface renderings, the VNI allocation, the two tunnel passes and
the two cross-connects. -/
def demoInterNodeDone (al : Nat) (c : Render Nat Unit) : Render Nat Unit :=
  addXConnect demoEnv "node2" "IF_vnf5_port1"
    (tunnelIfName (VNFService.mk "svc") 0 (al + 1) "node2"
      (ConnectionInterface.mk "vnf5" "port1") "node1" (ConnectionInterface.mk "vnf1" "port1"))
    (addXConnect demoEnv "node1" "IF_vnf1_port1"
      (tunnelIfName (VNFService.mk "svc") 0 (al + 1) "node1"
        (ConnectionInterface.mk "vnf1" "port1") "node2" (ConnectionInterface.mk "vnf5" "port1"))
      (tunnelStep demoEnv "pool1" "uplink" "node2" "node1"
        (tunnelIfName (VNFService.mk "svc") 0 (al + 1) "node2"
          (ConnectionInterface.mk "vnf5" "port1") "node1"
          (ConnectionInterface.mk "vnf1" "port1"))
        (al + 1)
        (tunnelStep demoEnv "pool1" "uplink" "node1" "node2"
          (tunnelIfName (VNFService.mk "svc") 0 (al + 1) "node1"
            (ConnectionInterface.mk "vnf1" "port1") "node2"
            (ConnectionInterface.mk "vnf5" "port1"))
          (al + 1)
          (callAllocateVni demoEnv "overlay1" al (demoAfterInterfaces c)).2)))

/-- A sample reload environment: every store read finds the entry, and the two helper
functions leave the state as it is. -/
def demoReloadEnv : ReloadEnv Unit :=
  { IPAMPoolScopeNode := "node"
    IPAMPoolScopeNetworkService := "network_service"
    EntityCreate := fun _ _ st => st
    ReadFromEtcd := fun key type => (KVType.mk key type 0, true, none)
    UpdateRamCacheAllocatorsForInterfaceStatus := fun _ _ st => st }

/-- A persisted node with two interfaces, memif identifiers 3 and 7, MAC identifiers 9 and 2. -/
def demoNodeStatus : StatusEntity :=
  { Name := "node1"
    Status := some
      { RenderedVppAgentEntries := [("k1", RenderedVppAgentEntry.mk "k1" "if")]
        Interfaces := [InterfaceStatus.mk "if1" 3 9, InterfaceStatus.mk "if2" 7 2] } }

/-- A persisted service with one interface, memif identifier 5 and MAC identifier 11. -/
def demoServiceStatus : StatusEntity :=
  { Name := "svc"
    Status := some
      { RenderedVppAgentEntries := []
        Interfaces := [InterfaceStatus.mk "if3" 5 11] } }

/-- A freshly initialised controller state whose counters stand at 4 and 1. -/
def demoController : Controller Unit :=
  { ipamPoolCache := [("pool1", { Status := none })]
    InterfaceStates := []
    VppEntries := []
    MemifID := 4
    MacAddrID := 1
    other := () }

/-- The state `demoController` after reloading `demoNodeStatus` and `demoServiceStatus`. -/
def demoControllerReloaded : Controller Unit :=
  { ipamPoolCache := [("pool1", { Status := some { Addresses := some [] } })]
    InterfaceStates := [("if3", InterfaceStatus.mk "if3" 5 11),
                        ("if2", InterfaceStatus.mk "if2" 7 2),
                        ("if1", InterfaceStatus.mk "if1" 3 9)]
    VppEntries := [("k1", KVType.mk "k1" "if" 0)]
    MemifID := 7
    MacAddrID := 11
    other := () }

/-- The plugin `demoPluginTwoNodes` once the allocator of `overlay1` has handed out VNI 5. -/
def demoPluginVni5 : Plugin Nat Unit :=
  withVniAllocator demoPluginTwoNodes "overlay1" 5

/-- The name of the sample tunnel interface on `node1` for VNI 5. -/
def demoTunnelName0 : String :=
  tunnelIfName (VNFService.mk "svc") 0 5 "node1" (ConnectionInterface.mk "vnf1" "port1")
    "node2" (ConnectionInterface.mk "vnf5" "port1")

/-- The name of the sample tunnel interface on `node2` for VNI 5. -/
def demoTunnelName1 : String :=
  tunnelIfName (VNFService.mk "svc") 0 5 "node2" (ConnectionInterface.mk "vnf5" "port1")
    "node1" (ConnectionInterface.mk "vnf1" "port1")

/-- The rendered entries once the sample tunnel interface on `node1` is added. -/
def demoEntriesTunnel0 : List RenderedVppAgentEntry :=
  demoStateInter2.RenderedVppAgentEntries ++
    [RenderedVppAgentEntry.mk ("node1" ++ "/interface/" ++ demoTunnelName0) "vxlan"]

/-- The sample static routes from `node1` to `node2`. -/
def demoRoutes0 : List RenderedVppAgentEntry :=
  [RenderedVppAgentEntry.mk ("node1" ++ "/route/" ++ "node2") "route"]

/-- The rendered entries once the sample tunnel interface on `node2` is added. -/
def demoEntriesTunnel1 : List RenderedVppAgentEntry :=
  (demoEntriesTunnel0 ++ demoRoutes0) ++
    [RenderedVppAgentEntry.mk ("node2" ++ "/interface/" ++ demoTunnelName1) "vxlan"]

/-- The sample static routes from `node2` to `node1`. -/
def demoRoutes1 : List RenderedVppAgentEntry :=
  [RenderedVppAgentEntry.mk ("node2" ++ "/route/" ++ "node1") "route"]

/-- The rendered entries once the sample cross-connect on `node1` is added. -/
def demoEntriesXConnect0 : List RenderedVppAgentEntry :=
  (demoEntriesTunnel1 ++ demoRoutes1) ++
    [RenderedVppAgentEntry.mk ("node1" ++ "/xconnect/" ++ "IF_vnf1_port1")
      ("xconnect to " ++ demoTunnelName0)]

/-- The rendered entries once the sample cross-connect on `node2` is added. -/
def demoEntriesXConnect1 : List RenderedVppAgentEntry :=
  demoEntriesXConnect0 ++
    [RenderedVppAgentEntry.mk ("node2" ++ "/xconnect/" ++ "IF_vnf5_port1")
      ("xconnect to " ++ demoTunnelName1)]

/-! ## Theorems: render transaction coordinator -/

theorem issuedBetween_self_store (s t : TxnState) (h : t.store = s.store) :
    issuedBetween s t = [] := by
  simp [issuedBetween, h]

/-- C1 (code defect): on a pass with before set `A:1, B:2` and after set `A:1, C:3`,
`RenderTxnConfigEnd` returns nil having issued no store operation and having left the
render cache as it was: `B` is neither deleted from the store nor removed from the
cache, and `C` is neither written nor cached. The same holds when the pass is driven
through Start, two adds and End. -/
theorem C1_RenderTxnConfigEnd_issues_no_delete_no_write :
    (∃ t, RenderTxnConfigEnd passABtoAC = .ok (t, none) ∧
        issuedBetween passABtoAC t = [] ∧
        GoMap.get t.VppEntries "B" = some objB2 ∧
        GoMap.get t.VppEntries "C" = none) ∧
    (∃ t, passAddAC idleWithAB = .ok (t, none) ∧
        issuedBetween idleWithAB t = [] ∧
        GoMap.get t.VppEntries "B" = some objB2 ∧
        GoMap.get t.VppEntries "C" = none) := by
  refine ⟨⟨{ passABtoAC with configMutex := false }, rfl, rfl, rfl, rfl⟩, ?_⟩
  exact ⟨{ idleWithAB with configMutex := false,
                           beforeMap := some [(0, some [])],
                           afterMap := some [(0, some [])] }, rfl, rfl, rfl, rfl⟩

/-- C2: when the pass-wide lock is held, `RenderTxnConfigEnd` returns nil and issues no
store write for a key whose payload is the same in the before set and the after set (at
any level); and when the after map equals the before map, the writes and the deletes it
issues are both empty. -/
theorem C2_RenderTxnConfigEnd_no_write_when_unchanged (s : TxnState)
    (hlock : s.configMutex = true) :
    ∃ t, RenderTxnConfigEnd s = .ok (t, none) ∧
      (∀ (l : Int) (key : String) (kv : KVType),
        LevelMap.entry s.beforeMap l key = some kv →
        LevelMap.entry s.afterMap l key = some kv →
        ∀ op ∈ issuedBetween s t, op.isPut = true → op.key ≠ key) ∧
      (s.afterMap = s.beforeMap →
        (issuedBetween s t).filter StoreOp.isPut = [] ∧
        (issuedBetween s t).filter StoreOp.isDelete = []) := by
  refine ⟨{ s with configMutex := false }, ?_, ?_, ?_⟩
  · simp [RenderTxnConfigEnd, hlock]
  · intro l key kv _ _ op hop
    have hnone : issuedBetween s { s with configMutex := false } = [] :=
      issuedBetween_self_store s _ rfl
    rw [hnone] at hop
    cases hop
  · intro _
    have hnone : issuedBetween s { s with configMutex := false } = [] :=
      issuedBetween_self_store s _ rfl
    rw [hnone]
    exact ⟨rfl, rfl⟩

/-- Witness for C2: a pass whose before and after maps both hold `A:1` at level 0. -/
theorem C2_RenderTxnConfigEnd_no_write_when_unchanged_witness :
    unchangedPassA.configMutex = true ∧
    ∃ t, RenderTxnConfigEnd unchangedPassA = .ok (t, none) ∧
      (∀ (l : Int) (key : String) (kv : KVType),
        LevelMap.entry unchangedPassA.beforeMap l key = some kv →
        LevelMap.entry unchangedPassA.afterMap l key = some kv →
        ∀ op ∈ issuedBetween unchangedPassA t, op.isPut = true → op.key ≠ key) ∧
      (unchangedPassA.afterMap = unchangedPassA.beforeMap →
        (issuedBetween unchangedPassA t).filter StoreOp.isPut = [] ∧
        (issuedBetween unchangedPassA t).filter StoreOp.isDelete = []) :=
  ⟨rfl, C2_RenderTxnConfigEnd_no_write_when_unchanged unchangedPassA rfl⟩

/-- C3 (code defect): started with a render cache that holds `A:1` and `B:2`,
`RenderTxnConfigStart` returns with the level at 0 and the after set of level 0 empty, but
the before set of level 0 is empty as well: it holds neither `A` nor `B`, although both are
in `VppEntries`. -/
theorem C3_RenderTxnConfigStart_before_set_not_seeded :
    ∃ t, RenderTxnConfigStart idleWithAB = .ok t ∧
      t.level = 0 ∧
      LevelMap.at t.afterMap 0 = some [] ∧
      LevelMap.at t.beforeMap 0 = some [] ∧
      LevelMap.entry t.beforeMap 0 "A" = none ∧
      LevelMap.entry t.beforeMap 0 "B" = none ∧
      GoMap.get t.VppEntries "A" = some objA1 ∧
      GoMap.get t.VppEntries "B" = some objB2 :=
  ⟨{ idleWithAB with configMutex := true, beforeMap := some [(0, some [])],
                     afterMap := some [(0, some [])] },
    rfl, rfl, rfl, rfl, rfl, rfl, rfl, rfl⟩

/-- C4 (code defect): in the state right after Start, `RenderTxnAddVppEntryToTxn` called
with object `A:1` leaves the after set of the current level without an entry for key `A`
(the state is returned as it was) and returns the empty list. -/
theorem C4_RenderTxnAddVppEntryToTxn_does_not_record :
    ∃ s, RenderTxnConfigStart idleWithAB = .ok s ∧
      RenderTxnAddVppEntryToTxn s [] objA1 = (s, []) ∧
      LevelMap.entry (RenderTxnAddVppEntryToTxn s [] objA1).1.afterMap
        (RenderTxnAddVppEntryToTxn s [] objA1).1.level objA1.VppKey = none :=
  ⟨{ idleWithAB with configMutex := true, beforeMap := some [(0, some [])],
                     afterMap := some [(0, some [])] }, rfl, rfl, rfl⟩

/-- C5 (code defect): `RenderTxnConfigEntityRemoveEntries` called at nesting level 1 sets
the whole after map to nil. With `A:1` committed at level 0 and `B:2` rendered at level 1,
the entry `A` of level 0 is gone after the call; and after Start and Entity-Start, the
after set of level 0, an initialised empty map before the call, is the nil map after it. -/
theorem C5_RenderTxnConfigEntityRemoveEntries_discards_outer_levels :
    (nestedAB.level = 1 ∧
      LevelMap.entry nestedAB.afterMap 0 "A" = some objA1 ∧
      LevelMap.entry (RenderTxnConfigEntityRemoveEntries nestedAB).afterMap 0 "A" = none ∧
      LevelMap.at (RenderTxnConfigEntityRemoveEntries nestedAB).afterMap 0 = none) ∧
    (∃ s, (RenderTxnConfigStart idleWithAB >>= RenderTxnConfigEntityStart) = .ok s ∧
      s.level = 1 ∧
      LevelMap.at s.afterMap 0 = some [] ∧
      LevelMap.at (RenderTxnConfigEntityRemoveEntries s).afterMap 0 = none) :=
  ⟨⟨rfl, rfl, rfl, rfl⟩,
    ⟨{ idleWithAB with configMutex := true, level := 1,
                       beforeMap := some [(1, some []), (0, some [])],
                       afterMap := some [(1, some []), (0, some [])] }, rfl, rfl, rfl, rfl⟩⟩

/-- C6 (code defect): `RenderTxnConfigEntityEnd` increments the level like
`RenderTxnConfigEntityStart` does. After Start, one Entity-Start followed by one Entity-End
leaves the level at 2, not 0, and two such pairs leave it at 4. -/
theorem C6_RenderTxnConfigEntityEnd_raises_level :
    (∃ s, (RenderTxnConfigStart idleWithAB >>= RenderTxnConfigEntityStart
            >>= RenderTxnConfigEntityEnd) = .ok s ∧ s.level = 2) ∧
    (∃ s, (RenderTxnConfigStart idleWithAB >>= RenderTxnConfigEntityStart
            >>= RenderTxnConfigEntityEnd >>= RenderTxnConfigEntityStart
            >>= RenderTxnConfigEntityEnd) = .ok s ∧ s.level = 4) :=
  ⟨⟨{ idleWithAB with configMutex := true, level := 2,
                      beforeMap := some [(2, some []), (1, some []), (0, some [])],
                      afterMap := some [(2, some []), (1, some []), (0, some [])] }, rfl, rfl⟩,
   ⟨{ idleWithAB with configMutex := true, level := 4,
                      beforeMap := some [(4, some []), (3, some []), (2, some []),
                                         (1, some []), (0, some [])],
                      afterMap := some [(4, some []), (3, some []), (2, some []),
                                        (1, some []), (0, some [])] }, rfl, rfl⟩⟩

/-- C7 (code defect): in every state, `RenderTxnConfigEntityRemoveEntries` followed by
`RenderTxnConfigEntityStart` or by `RenderTxnConfigEntityEnd` panics with an assignment to
an entry of a nil map; in particular right after Start. -/
theorem C7_entity_start_after_remove_entries_panics :
    (∀ s : TxnState,
      RenderTxnConfigEntityStart (RenderTxnConfigEntityRemoveEntries s)
          = .error Fault.nilMapWrite ∧
      RenderTxnConfigEntityEnd (RenderTxnConfigEntityRemoveEntries s)
          = .error Fault.nilMapWrite) ∧
    (∃ s, RenderTxnConfigStart idleWithAB = .ok s ∧
      RenderTxnConfigEntityStart (RenderTxnConfigEntityRemoveEntries s)
          = .error Fault.nilMapWrite) := by
  refine ⟨?_, ⟨{ idleWithAB with configMutex := true, beforeMap := some [(0, some [])],
                                 afterMap := some [(0, some [])] }, rfl, rfl⟩⟩
  intro s
  constructor <;>
    cases hb : s.beforeMap <;>
    simp [RenderTxnConfigEntityStart, RenderTxnConfigEntityEnd,
      RenderTxnConfigEntityRemoveEntries, initLevelMap, hb]

/-! ## Theorems: topology renderer -/

section TopologyTheorems

variable {α χ : Type}

theorem peer_zero : peer 0 = 1 := by
  show Int.land (Int.negSucc 0) (Int.ofNat 1) = 1
  simp [Int.land, Nat.ldiff]

theorem peer_one : peer 1 = 0 := by
  show Int.land (Int.negSucc 1) (Int.ofNat 1) = 0
  have hbits : Nat.ldiff 1 1 = 0 := by
    apply Nat.eq_of_testBit_eq
    intro i
    simp [Nat.testBit_ldiff]
  simp [Int.land, hbits]

theorem callsBetween_append (c d : Render α χ) (made : List Call)
    (h : d.calls = c.calls ++ made) : callsBetween c d = made := by
  simp [callsBetween, h]

theorem sliceGet_zero {τ : Type} (x : τ) (xs : List τ) : sliceGet (x :: xs) 0 = .ok x := by
  simp [sliceGet]

theorem sliceGet_one {τ : Type} (x y : τ) (xs : List τ) :
    sliceGet (x :: y :: xs) 1 = .ok y := by
  simp [sliceGet]

theorem sameNodeOverrideBody_keep (E : Env α χ) (xs : List (Option Interface)) (i : Int)
    (x : Interface) (m : String) (hx : sliceGet xs i = .ok (some x))
    (hover : overridesInterVnfConn E x = false) :
    sameNodeOverrideBody E xs i m = .ok (Flow.next m) := by
  unfold sameNodeOverrideBody
  simp only [hx, deref, bind, Except.bind, pure, Except.pure]
  unfold overridesInterVnfConn at hover
  cases hp : x.MemifParms with
  | none => rfl
  | some parms =>
    simp only [hp, Bool.and_eq_false_iff, decide_eq_false_iff_not] at hover
    have hnot : ¬(parms.InterVnfConn ≠ "" ∧
        parms.InterVnfConn ≠ E.IfMemifInterVnfConnTypeDirect) := by
      rintro ⟨h1, h2⟩
      rcases hover with h | h
      · exact h h1
      · exact h h2
    simp only [hnot, if_false]

theorem sameNodeOverrideBody_override (E : Env α χ) (xs : List (Option Interface)) (i : Int)
    (x : Interface) (m : String) (parms : Interface_MemifParms)
    (hx : sliceGet xs i = .ok (some x)) (hp : x.MemifParms = some parms)
    (hover : overridesInterVnfConn E x = true) :
    sameNodeOverrideBody E xs i m = .ok (Flow.next parms.InterVnfConn) := by
  unfold sameNodeOverrideBody
  simp only [hx, deref, bind, Except.bind, pure, Except.pure]
  unfold overridesInterVnfConn at hover
  simp only [hp, Bool.and_eq_true, decide_eq_true_eq] at hover
  simp only [hp]
  rw [if_pos hover]

/-- C9: on a same-node connection whose two interfaces are both of the memif type and
neither of which overrides the inter-VNF connection type, `renderToplogySegmentL2PPSameNode`
returns what the direct inter-VNF memif pairing returns, and the calls it makes are exactly
one direct pairing: no cross-connect is constructed and no interface pair is rendered. -/
theorem C9_same_node_memif_direct_pairing (E : Env α χ) (vs : VNFService) (vppAgent : String)
    (conn : Connection) (connIndex : Nat) (if0 if1 : Interface) (vnfTypes : List String)
    (c : Render α χ)
    (hmemif0 : if0.IfType = E.IfTypeMemif) (hmemif1 : if1.IfType = E.IfTypeMemif)
    (hover0 : overridesInterVnfConn E if0 = false)
    (hover1 : overridesInterVnfConn E if1 = false) :
    ∃ d, renderToplogySegmentL2PPSameNode E vs vppAgent conn connIndex [some if0, some if1]
          vnfTypes c = .ok d ∧
      d = callRenderToplogyDirectInterVnfMemifPair E vs conn [some if0, some if1]
            E.IfTypeMemif c ∧
      callsBetween c d.2 = [Call.RenderToplogyDirectInterVnfMemifPair E.IfTypeMemif] := by
  have h0 := sameNodeOverrideBody_keep E [some if0, some if1] 0 if0
    E.IfMemifInterVnfConnTypeDirect (sliceGet_zero _ _) hover0
  have h1 := sameNodeOverrideBody_keep E [some if0, some if1] 1 if1
    E.IfMemifInterVnfConnTypeDirect (sliceGet_one _ _ _) hover1
  have hloop : for2 (sameNodeOverrideBody E [some if0, some if1])
      E.IfMemifInterVnfConnTypeDirect = .ok (Flow.next E.IfMemifInterVnfConnTypeDirect) := by
    simp only [for2, h0, h1]
  refine ⟨callRenderToplogyDirectInterVnfMemifPair E vs conn [some if0, some if1]
    E.IfTypeMemif c, ?_, rfl, ?_⟩
  · unfold renderToplogySegmentL2PPSameNode
    simp only [hloop, sliceGet_zero, sliceGet_one, deref, bind, Except.bind, pure, Except.pure,
      hmemif0, hmemif1, and_self, if_true]
    cases hres : (callRenderToplogyDirectInterVnfMemifPair E vs conn [some if0, some if1]
      E.IfTypeMemif c).1 with
    | none => simp only [← hres]
    | some err => simp only [← hres]
  · exact callsBetween_append c _ _ rfl

/-- Witness for C9: two memif interfaces, one without memif parameters and one with an
empty connection type, on node `node1`. -/
theorem C9_same_node_memif_direct_pairing_witness :
    memifPort1.IfType = demoEnv.IfTypeMemif ∧ memifPort2.IfType = demoEnv.IfTypeMemif ∧
    overridesInterVnfConn demoEnv memifPort1 = false ∧
    overridesInterVnfConn demoEnv memifPort2 = false ∧
    ∃ d, renderToplogySegmentL2PPSameNode demoEnv (VNFService.mk "svc") "node1" demoConn 0
          [some memifPort1, some memifPort2] ["vnf", "vnf"] demoRender = .ok d ∧
      d = callRenderToplogyDirectInterVnfMemifPair demoEnv (VNFService.mk "svc") demoConn
            [some memifPort1, some memifPort2] demoEnv.IfTypeMemif demoRender ∧
      callsBetween demoRender d.2 =
        [Call.RenderToplogyDirectInterVnfMemifPair demoEnv.IfTypeMemif] :=
  ⟨rfl, rfl, rfl, rfl,
    C9_same_node_memif_direct_pairing demoEnv (VNFService.mk "svc") "node1" demoConn 0
      memifPort1 memifPort2 ["vnf", "vnf"] demoRender rfl rfl rfl rfl⟩

theorem overridesInterVnfConn_true (E : Env α χ) (x : Interface)
    (h : overridesInterVnfConn E x = true) :
    ∃ parms, x.MemifParms = some parms ∧
      parms.InterVnfConn ≠ E.IfMemifInterVnfConnTypeDirect := by
  unfold overridesInterVnfConn at h
  cases hp : x.MemifParms with
  | none => simp [hp] at h
  | some parms =>
    simp only [hp, Bool.and_eq_true, decide_eq_true_eq] at h
    exact ⟨parms, rfl, h.2⟩

theorem sameNodeOverride_loop (E : Env α χ) (if0 if1 : Interface) :
    ∃ m, for2 (sameNodeOverrideBody E [some if0, some if1]) E.IfMemifInterVnfConnTypeDirect
        = (.ok (Flow.next m) : Except Fault (Flow String (GoError × Render α χ))) ∧
      (m = E.IfMemifInterVnfConnTypeDirect ↔
        overridesInterVnfConn E if0 = false ∧ overridesInterVnfConn E if1 = false) := by
  cases ho0 : overridesInterVnfConn E if0 <;> cases ho1 : overridesInterVnfConn E if1
  · refine ⟨E.IfMemifInterVnfConnTypeDirect, ?_, by simp⟩
    simp only [for2, sameNodeOverrideBody_keep E _ 0 if0 _ (sliceGet_zero _ _) ho0,
      sameNodeOverrideBody_keep E _ 1 if1 _ (sliceGet_one _ _ _) ho1]
  · obtain ⟨parms, hp, hne⟩ := overridesInterVnfConn_true E if1 ho1
    refine ⟨parms.InterVnfConn, ?_, by simp [hne]⟩
    simp only [for2, sameNodeOverrideBody_keep E _ 0 if0 _ (sliceGet_zero _ _) ho0,
      sameNodeOverrideBody_override E _ 1 if1 _ parms (sliceGet_one _ _ _) hp ho1]
  · obtain ⟨parms, hp, hne⟩ := overridesInterVnfConn_true E if0 ho0
    refine ⟨parms.InterVnfConn, ?_, by simp [hne]⟩
    simp only [for2, sameNodeOverrideBody_override E _ 0 if0 _ parms (sliceGet_zero _ _) hp ho0,
      sameNodeOverrideBody_keep E _ 1 if1 _ (sliceGet_one _ _ _) ho1]
  · obtain ⟨parms0, hp0, _⟩ := overridesInterVnfConn_true E if0 ho0
    obtain ⟨parms, hp, hne⟩ := overridesInterVnfConn_true E if1 ho1
    refine ⟨parms.InterVnfConn, ?_, by simp [hne]⟩
    simp only [for2, sameNodeOverrideBody_override E _ 0 if0 _ parms0 (sliceGet_zero _ _) hp0 ho0,
      sameNodeOverrideBody_override E _ 1 if1 _ parms (sliceGet_one _ _ _) hp ho1]

theorem sameNodeInterfaceBody_ok (E : Env α χ) (vs : VNFService) (vppAgent : String)
    (conn : Connection) (vnfInterfaces : List (Option Interface)) (vnfTypes : List String)
    (i : Int) (xconn xconn1 : Arr2 String) (c : Render α χ) (ci : ConnectionInterface)
    (vi : Option Interface) (t : String) (p1 : Plugin α χ) (s1 : VNFServiceState)
    (name : String)
    (hci : sliceGet conn.Interfaces i = .ok ci) (hvi : sliceGet vnfInterfaces i = .ok vi)
    (ht : sliceGet vnfTypes i = .ok t)
    (hcall : E.RenderToplogyInterfacePair vs vppAgent ci vi t (c.plugin, c.vsState)
      = ((p1, s1), (name, none)))
    (hset : xconn.set i name = .ok xconn1) :
    sameNodeInterfaceBody E vs vppAgent conn vnfInterfaces vnfTypes i (xconn, c) =
      .ok (Flow.next (xconn1,
        { plugin := p1, vsState := s1,
          calls := c.calls ++ [Call.RenderToplogyInterfacePair vppAgent ci] })) := by
  unfold sameNodeInterfaceBody
  simp only [hci, hvi, ht, callRenderToplogyInterfacePair, hcall, hset, bind, Except.bind, pure,
    Except.pure]

/-- C10: on a same-node connection whose interfaces are not both memif, or where at least
one interface overrides the inter-VNF connection type, and whose two interface renderings
succeed with names `a` (endpoint 0) and `b` (endpoint 1),
`renderToplogySegmentL2PPSameNode` returns nil and makes exactly these calls, in order: the
two interface renderings on node `vppAgent`, the cross-connect from `a` to `b` with its
transaction add, and the cross-connect from `b` to `a` with its transaction add. No direct
pairing is performed. The peer index `^i&1` is 1 for 0 and 0 for 1. -/
theorem C10_same_node_vswitch_cross_connects (E : Env α χ) (vs : VNFService)
    (vppAgent : String) (conn : Connection) (connIndex : Nat) (if0 if1 : Interface)
    (ci0 ci1 : ConnectionInterface) (t0 t1 : String) (c : Render α χ)
    (p1 p2 : Plugin α χ) (s1 s2 : VNFServiceState) (a b : String)
    (hconn : conn.Interfaces = [ci0, ci1])
    (hcond : ¬(if0.IfType = E.IfTypeMemif ∧ if1.IfType = E.IfTypeMemif) ∨
      overridesInterVnfConn E if0 = true ∨ overridesInterVnfConn E if1 = true)
    (hpair0 : E.RenderToplogyInterfacePair vs vppAgent ci0 (some if0) t0 (c.plugin, c.vsState)
      = ((p1, s1), (a, none)))
    (hpair1 : E.RenderToplogyInterfacePair vs vppAgent ci1 (some if1) t1 (p1, s1)
      = ((p2, s2), (b, none))) :
    ∃ d, renderToplogySegmentL2PPSameNode E vs vppAgent conn connIndex [some if0, some if1]
          [t0, t1] c = .ok (none, d) ∧
      d = addXConnect E vppAgent b a (addXConnect E vppAgent a b
            { plugin := p2, vsState := s2,
              calls := c.calls ++ [Call.RenderToplogyInterfacePair vppAgent ci0,
                                   Call.RenderToplogyInterfacePair vppAgent ci1] }) ∧
      callsBetween c d =
        [Call.RenderToplogyInterfacePair vppAgent ci0,
         Call.RenderToplogyInterfacePair vppAgent ci1,
         Call.ConstructXConnect vppAgent a b,
         Call.ConfigTransactionAddVppEntries (E.ConstructXConnect vppAgent a b),
         Call.ConstructXConnect vppAgent b a,
         Call.ConfigTransactionAddVppEntries (E.ConstructXConnect vppAgent b a)] ∧
      peer 0 = 1 ∧ peer 1 = 0 := by
  obtain ⟨m, hloop, hm⟩ := sameNodeOverride_loop E if0 if1
  have hnot : ¬(if0.IfType = if1.IfType ∧ if0.IfType = E.IfTypeMemif ∧
      m = E.IfMemifInterVnfConnTypeDirect) := by
    rintro ⟨heq, hmem, hdir⟩
    have hno := hm.mp hdir
    rcases hcond with h | h | h
    · exact h ⟨hmem, heq ▸ hmem⟩
    · rw [hno.1] at h; cases h
    · rw [hno.2] at h; cases h
  have hbody0 := sameNodeInterfaceBody_ok E vs vppAgent conn [some if0, some if1] [t0, t1] 0
    (Arr2.mk "" "") (Arr2.mk a "") c ci0 (some if0) t0 p1 s1 a
    (by rw [hconn]; exact sliceGet_zero _ _) (sliceGet_zero _ _) (sliceGet_zero _ _) hpair0 rfl
  have hbody1 := sameNodeInterfaceBody_ok E vs vppAgent conn [some if0, some if1] [t0, t1] 1
    (Arr2.mk a "") (Arr2.mk a b)
    { plugin := p1, vsState := s1,
      calls := c.calls ++ [Call.RenderToplogyInterfacePair vppAgent ci0] }
    ci1 (some if1) t1 p2 s2 b
    (by rw [hconn]; exact sliceGet_one _ _ _) (sliceGet_one _ _ _) (sliceGet_one _ _ _)
    hpair1 rfl
  refine ⟨_, ?_, rfl, ?_, peer_zero, peer_one⟩
  · unfold renderToplogySegmentL2PPSameNode
    simp only [hloop, sliceGet_zero, sliceGet_one, deref, bind, Except.bind, pure, Except.pure,
      if_neg hnot]
    simp only [for2, hbody0, hbody1, sameNodeXConnectBody, peer_zero, peer_one, Arr2.get,
      bind, Except.bind, pure, Except.pure,
      List.append_assoc, List.singleton_append, if_true, if_false, one_ne_zero]
  · apply callsBetween_append
    simp [addXConnect]

/-- Witness for C10: two memif interfaces on `node1`, the second overriding the connection
type to vswitch; the sample interface renderings succeed with names `IF_vnf1_port1` and
`IF_vnf2_port3`. -/
theorem C10_same_node_vswitch_cross_connects_witness :
    demoConnVswitch.Interfaces =
      [ConnectionInterface.mk "vnf1" "port1", ConnectionInterface.mk "vnf2" "port3"] ∧
    (¬(memifPort1.IfType = demoEnv.IfTypeMemif ∧ memifVswitchPort.IfType = demoEnv.IfTypeMemif) ∨
      overridesInterVnfConn demoEnv memifPort1 = true ∨
      overridesInterVnfConn demoEnv memifVswitchPort = true) ∧
    demoEnv.RenderToplogyInterfacePair (VNFService.mk "svc") "node1"
        (ConnectionInterface.mk "vnf1" "port1") (some memifPort1) "vnf"
        (demoRender.plugin, demoRender.vsState)
      = ((demoPlugin, demoStateAfterPort1), ("IF_vnf1_port1", none)) ∧
    demoEnv.RenderToplogyInterfacePair (VNFService.mk "svc") "node1"
        (ConnectionInterface.mk "vnf2" "port3") (some memifVswitchPort) "vnf"
        (demoPlugin, demoStateAfterPort1)
      = ((demoPlugin, demoStateAfterPort3), ("IF_vnf2_port3", none)) ∧
    ∃ d, renderToplogySegmentL2PPSameNode demoEnv (VNFService.mk "svc") "node1" demoConnVswitch 0
          [some memifPort1, some memifVswitchPort] ["vnf", "vnf"] demoRender = .ok (none, d) ∧
      d = addXConnect demoEnv "node1" "IF_vnf2_port3" "IF_vnf1_port1"
            (addXConnect demoEnv "node1" "IF_vnf1_port1" "IF_vnf2_port3"
              { plugin := demoPlugin, vsState := demoStateAfterPort3,
                calls := demoRender.calls ++
                  [Call.RenderToplogyInterfacePair "node1" (ConnectionInterface.mk "vnf1" "port1"),
                   Call.RenderToplogyInterfacePair "node1"
                     (ConnectionInterface.mk "vnf2" "port3")] }) ∧
      callsBetween demoRender d =
        [Call.RenderToplogyInterfacePair "node1" (ConnectionInterface.mk "vnf1" "port1"),
         Call.RenderToplogyInterfacePair "node1" (ConnectionInterface.mk "vnf2" "port3"),
         Call.ConstructXConnect "node1" "IF_vnf1_port1" "IF_vnf2_port3",
         Call.ConfigTransactionAddVppEntries
           (demoEnv.ConstructXConnect "node1" "IF_vnf1_port1" "IF_vnf2_port3"),
         Call.ConstructXConnect "node1" "IF_vnf2_port3" "IF_vnf1_port1",
         Call.ConfigTransactionAddVppEntries
           (demoEnv.ConstructXConnect "node1" "IF_vnf2_port3" "IF_vnf1_port1")] ∧
      peer 0 = 1 ∧ peer 1 = 0 :=
  ⟨rfl, Or.inr (Or.inr rfl), rfl, rfl,
    C10_same_node_vswitch_cross_connects demoEnv (VNFService.mk "svc") "node1" demoConnVswitch 0
      memifPort1 memifVswitchPort (ConnectionInterface.mk "vnf1" "port1")
      (ConnectionInterface.mk "vnf2" "port3") "vnf" "vnf" demoRender demoPlugin demoPlugin
      demoStateAfterPort1 demoStateAfterPort3 "IF_vnf1_port1" "IF_vnf2_port3"
      rfl (Or.inr (Or.inr rfl)) rfl rfl⟩

theorem resolveEndpoint_unresolved (E : Env α χ) (vnfs : List VNF) (i : Nat)
    (ci : ConnectionInterface) (r : Resolved) (c : Render α χ)
    (h : endpointUnresolved c.plugin ci = true) :
    ∃ msg, resolveEndpoint E vnfs i ci (r, c) =
      .ok ({ r with allVnfsAssignedToNodes := false }, AppendStatusMsgToVnfService msg c) := by
  unfold endpointUnresolved at h
  unfold resolveEndpoint
  cases hv : GoMap.get c.plugin.ramConfigCache.VNFToNodeMap ci.Vnf with
  | none => exact ⟨_, by simp; rfl⟩
  | some v =>
    simp only [hv, Bool.or_eq_true, decide_eq_true_eq] at h
    by_cases hn : v.Node = ""
    · exact ⟨_, by simp [hn]; rfl⟩
    · have hnodes : (GoMap.get c.plugin.ramConfigCache.Nodes v.Node).isNone = true := by
        rcases h with h | h
        · exact absurd h hn
        · exact h
      exact ⟨_, by simp [hn, hnodes]; rfl⟩

theorem resolveEndpoint_resolved (E : Env α χ) (vnfs : List VNF) (i : Nat)
    (ci : ConnectionInterface) (r : Resolved) (c : Render α χ)
    (h : endpointUnresolved c.plugin ci = false) :
    ∃ v, GoMap.get c.plugin.ramConfigCache.VNFToNodeMap ci.Vnf = some v ∧
      resolveEndpoint E vnfs i ci (r, c) =
        (r.v2n.set i v).map (fun v2n =>
          ({ r with
              v2n := v2n
              vnfInterfaces := r.vnfInterfaces.set i
                (E.findVnfAndInterfaceInVnfList ci.Vnf ci.Interface vnfs).1
              vnfTypes := r.vnfTypes.set i
                (E.findVnfAndInterfaceInVnfList ci.Vnf ci.Interface vnfs).2 }, c)) := by
  unfold endpointUnresolved at h
  unfold resolveEndpoint
  cases hv : GoMap.get c.plugin.ramConfigCache.VNFToNodeMap ci.Vnf with
  | none => simp [hv] at h
  | some v =>
    simp only [hv, Bool.or_eq_false_iff, decide_eq_false_iff_not] at h
    refine ⟨v, rfl, ?_⟩
    have hnodes : (GoMap.get c.plugin.ramConfigCache.Nodes v.Node).isNone = false := h.2
    simp only [Option.getD_some, Option.isNone_some, Bool.false_eq_true, h.1, or_self, if_false,
      hnodes]
    cases hset : r.v2n.set (↑i) v <;> rfl

theorem RenderTopologyL2PP_of_resolved (E : Env α χ) (vs : VNFService) (vnfs : List VNF)
    (conn : Connection) (connIndex : Nat) (c : Render α χ) (i0 i1 : ConnectionInterface)
    (hconn : conn.Interfaces = [i0, i1])
    (h0 : endpointUnresolved c.plugin i0 = false)
    (h1 : endpointUnresolved c.plugin i1 = false) :
    ∃ v0 v1, GoMap.get c.plugin.ramConfigCache.VNFToNodeMap i0.Vnf = some v0 ∧
      GoMap.get c.plugin.ramConfigCache.VNFToNodeMap i1.Vnf = some v1 ∧
      RenderTopologyL2PP E vs vnfs conn connIndex c =
        renderResolved E vs conn connIndex
          { v2n := Arr2.mk v0 v1
            vnfInterfaces := [(E.findVnfAndInterfaceInVnfList i0.Vnf i0.Interface vnfs).1,
                              (E.findVnfAndInterfaceInVnfList i1.Vnf i1.Interface vnfs).1]
            vnfTypes := [(E.findVnfAndInterfaceInVnfList i0.Vnf i0.Interface vnfs).2,
                         (E.findVnfAndInterfaceInVnfList i1.Vnf i1.Interface vnfs).2]
            allVnfsAssignedToNodes := true } c := by
  obtain ⟨v0, hv0, hr0⟩ := resolveEndpoint_resolved E vnfs 0 i0 Resolved.init c h0
  refine ⟨v0, ?_⟩
  have hstep0 : resolveEndpoint E vnfs 0 i0 (Resolved.init, c) =
      .ok ({ v2n := Arr2.mk v0 (VNFToNodeMap.mk "" "")
             vnfInterfaces := [(E.findVnfAndInterfaceInVnfList i0.Vnf i0.Interface vnfs).1, none]
             vnfTypes := [(E.findVnfAndInterfaceInVnfList i0.Vnf i0.Interface vnfs).2, ""]
             allVnfsAssignedToNodes := true }, c) := by
    rw [hr0]; rfl
  obtain ⟨v1, hv1, hr1⟩ := resolveEndpoint_resolved E vnfs 1 i1
    { v2n := Arr2.mk v0 (VNFToNodeMap.mk "" "")
      vnfInterfaces := [(E.findVnfAndInterfaceInVnfList i0.Vnf i0.Interface vnfs).1, none]
      vnfTypes := [(E.findVnfAndInterfaceInVnfList i0.Vnf i0.Interface vnfs).2, ""]
      allVnfsAssignedToNodes := true } c h1
  refine ⟨v1, hv0, hv1, ?_⟩
  unfold RenderTopologyL2PP
  rw [hconn]
  simp only [resolveEndpoints, hstep0, Nat.zero_add, hr1]
  rfl

/-- C8: for a connection with the two endpoints `i0` and `i1`. If at least one endpoint is
unresolved (its VNF is absent from the VNF-to-node map, is mapped to the empty node name, or
is mapped to a node that is not in the node cache), `RenderTopologyL2PP` returns the error
`Not all vnfs in this connection are mapped to nodes`, leaves the plugin (and so every
allocator) and the rendered entries of the service unchanged, makes no call other than
appending status messages, and appends one status message per unresolved endpoint. If both
endpoints are resolved, that return is not taken: no message is appended and the result is
the one of the code that follows the check. -/
theorem C8_RenderTopologyL2PP_unresolved_endpoint (E : Env α χ) (vs : VNFService)
    (vnfs : List VNF) (conn : Connection) (connIndex : Nat) (c : Render α χ)
    (i0 i1 : ConnectionInterface) (hconn : conn.Interfaces = [i0, i1]) :
    ((endpointUnresolved c.plugin i0 = true ∨ endpointUnresolved c.plugin i1 = true) →
      ∃ d msgs, RenderTopologyL2PP E vs vnfs conn connIndex c =
          .ok (some "Not all vnfs in this connection are mapped to nodes", d) ∧
        d.plugin = c.plugin ∧
        d.vsState.RenderedVppAgentEntries = c.vsState.RenderedVppAgentEntries ∧
        d.vsState.Msg = c.vsState.Msg ++ msgs ∧
        callsBetween c d = msgs.map Call.AppendStatusMsgToVnfService ∧
        msgs.length = ([i0, i1].filter (endpointUnresolved c.plugin)).length) ∧
    (endpointUnresolved c.plugin i0 = false → endpointUnresolved c.plugin i1 = false →
      ∃ r : Resolved, r.allVnfsAssignedToNodes = true ∧
        GoMap.get c.plugin.ramConfigCache.VNFToNodeMap i0.Vnf = some r.v2n.e0 ∧
        GoMap.get c.plugin.ramConfigCache.VNFToNodeMap i1.Vnf = some r.v2n.e1 ∧
        RenderTopologyL2PP E vs vnfs conn connIndex c =
          renderResolved E vs conn connIndex r c) := by
  constructor
  · intro hun
    unfold RenderTopologyL2PP
    rw [hconn]
    cases hu0 : endpointUnresolved c.plugin i0 <;> cases hu1 : endpointUnresolved c.plugin i1
    · rw [hu0, hu1] at hun; simp at hun
    · obtain ⟨v0, _, hr0⟩ := resolveEndpoint_resolved E vnfs 0 i0 Resolved.init c hu0
      have hstep0 : resolveEndpoint E vnfs 0 i0 (Resolved.init, c) =
          .ok ({ v2n := Arr2.mk v0 (VNFToNodeMap.mk "" "")
                 vnfInterfaces :=
                   [(E.findVnfAndInterfaceInVnfList i0.Vnf i0.Interface vnfs).1, none]
                 vnfTypes := [(E.findVnfAndInterfaceInVnfList i0.Vnf i0.Interface vnfs).2, ""]
                 allVnfsAssignedToNodes := true }, c) := by
        rw [hr0]; rfl
      obtain ⟨msg, hr1⟩ := resolveEndpoint_unresolved E vnfs 1 i1
        { v2n := Arr2.mk v0 (VNFToNodeMap.mk "" "")
          vnfInterfaces := [(E.findVnfAndInterfaceInVnfList i0.Vnf i0.Interface vnfs).1, none]
          vnfTypes := [(E.findVnfAndInterfaceInVnfList i0.Vnf i0.Interface vnfs).2, ""]
          allVnfsAssignedToNodes := true } c hu1
      refine ⟨AppendStatusMsgToVnfService msg c, [msg], ?_, rfl, rfl, rfl, ?_, ?_⟩
      · simp only [resolveEndpoints, hstep0, Nat.zero_add, hr1]
        rfl
      · exact callsBetween_append c _ _ rfl
      · simp [List.filter, hu0, hu1]
    · obtain ⟨msg, hr0⟩ := resolveEndpoint_unresolved E vnfs 0 i0 Resolved.init c hu0
      have hu1m : endpointUnresolved (AppendStatusMsgToVnfService msg c).plugin i1 = false := hu1
      obtain ⟨v1, _, hr1⟩ := resolveEndpoint_resolved E vnfs 1 i1
        { Resolved.init with allVnfsAssignedToNodes := false }
        (AppendStatusMsgToVnfService msg c) hu1m
      refine ⟨AppendStatusMsgToVnfService msg c, [msg], ?_, rfl, rfl, rfl, ?_, ?_⟩
      · simp only [resolveEndpoints, hr0, Nat.zero_add, hr1]
        rfl
      · exact callsBetween_append c _ _ rfl
      · simp [List.filter, hu0, hu1]
    · obtain ⟨msg0, hr0⟩ := resolveEndpoint_unresolved E vnfs 0 i0 Resolved.init c hu0
      have hu1m : endpointUnresolved (AppendStatusMsgToVnfService msg0 c).plugin i1 = true := hu1
      obtain ⟨msg1, hr1⟩ := resolveEndpoint_unresolved E vnfs 1 i1
        { Resolved.init with allVnfsAssignedToNodes := false }
        (AppendStatusMsgToVnfService msg0 c) hu1m
      refine ⟨AppendStatusMsgToVnfService msg1 (AppendStatusMsgToVnfService msg0 c),
        [msg0, msg1], ?_, rfl, rfl, ?_, ?_, ?_⟩
      · simp only [resolveEndpoints, hr0, Nat.zero_add, hr1]
        rfl
      · simp [AppendStatusMsgToVnfService]
      · apply callsBetween_append
        simp [AppendStatusMsgToVnfService]
      · simp [List.filter, hu0, hu1]
  · intro h0 h1
    obtain ⟨v0, v1, hv0, hv1, hrun⟩ :=
      RenderTopologyL2PP_of_resolved E vs vnfs conn connIndex c i0 i1 hconn h0 h1
    exact ⟨_, rfl, hv0, hv1, hrun⟩

/-- Witness for C8: in the sample cache, `vnf3` is placed on the unknown node `node9` and
`vnf4` is not placed, so the connection between them fails with two status messages; `vnf1`
and `vnf2` are both placed on `node1`, so their connection passes the check. -/
theorem C8_RenderTopologyL2PP_unresolved_endpoint_witness :
    (demoConnUnplaced.Interfaces =
        [ConnectionInterface.mk "vnf3" "port1", ConnectionInterface.mk "vnf4" "port1"] ∧
      (endpointUnresolved demoRender.plugin (ConnectionInterface.mk "vnf3" "port1") = true ∨
        endpointUnresolved demoRender.plugin (ConnectionInterface.mk "vnf4" "port1") = true) ∧
      ∃ d msgs, RenderTopologyL2PP demoEnv (VNFService.mk "svc") [] demoConnUnplaced 0 demoRender =
          .ok (some "Not all vnfs in this connection are mapped to nodes", d) ∧
        d.plugin = demoRender.plugin ∧
        d.vsState.RenderedVppAgentEntries = demoRender.vsState.RenderedVppAgentEntries ∧
        d.vsState.Msg = demoRender.vsState.Msg ++ msgs ∧
        callsBetween demoRender d = msgs.map Call.AppendStatusMsgToVnfService ∧
        msgs.length = ([ConnectionInterface.mk "vnf3" "port1",
          ConnectionInterface.mk "vnf4" "port1"].filter
            (endpointUnresolved demoRender.plugin)).length) ∧
    (demoConn.Interfaces =
        [ConnectionInterface.mk "vnf1" "port1", ConnectionInterface.mk "vnf2" "port2"] ∧
      endpointUnresolved demoRender.plugin (ConnectionInterface.mk "vnf1" "port1") = false ∧
      endpointUnresolved demoRender.plugin (ConnectionInterface.mk "vnf2" "port2") = false ∧
      ∃ r : Resolved, r.allVnfsAssignedToNodes = true ∧
        GoMap.get demoRender.plugin.ramConfigCache.VNFToNodeMap "vnf1" = some r.v2n.e0 ∧
        GoMap.get demoRender.plugin.ramConfigCache.VNFToNodeMap "vnf2" = some r.v2n.e1 ∧
        RenderTopologyL2PP demoEnv (VNFService.mk "svc") [] demoConn 0 demoRender =
          renderResolved demoEnv (VNFService.mk "svc") demoConn 0 r demoRender) :=
  ⟨⟨rfl, Or.inl rfl,
      (C8_RenderTopologyL2PP_unresolved_endpoint demoEnv (VNFService.mk "svc") [] demoConnUnplaced
        0 demoRender (ConnectionInterface.mk "vnf3" "port1")
        (ConnectionInterface.mk "vnf4" "port1") rfl).1 (Or.inl rfl)⟩,
    ⟨rfl, rfl, rfl,
      (C8_RenderTopologyL2PP_unresolved_endpoint demoEnv (VNFService.mk "svc") [] demoConn
        0 demoRender (ConnectionInterface.mk "vnf1" "port1")
        (ConnectionInterface.mk "vnf2" "port2") rfl).2 rfl rfl⟩⟩

/-- C11: for a connection whose two endpoints resolve to two different known nodes, when
the connection names no node overlay or names an overlay that is not in the overlay cache,
`RenderTopologyL2PP` returns an error whose text is the one status message it appends; that
append is the only call it makes, so the plugin (every allocator) and the rendered entries of
the service are unchanged. -/
theorem C11_RenderTopologyL2PP_missing_overlay (E : Env α χ) (vs : VNFService)
    (vnfs : List VNF) (conn : Connection) (connIndex : Nat) (c : Render α χ)
    (i0 i1 : ConnectionInterface) (v0 v1 : VNFToNodeMap)
    (hconn : conn.Interfaces = [i0, i1])
    (h0 : endpointUnresolved c.plugin i0 = false)
    (h1 : endpointUnresolved c.plugin i1 = false)
    (hv0 : GoMap.get c.plugin.ramConfigCache.VNFToNodeMap i0.Vnf = some v0)
    (hv1 : GoMap.get c.plugin.ramConfigCache.VNFToNodeMap i1.Vnf = some v1)
    (hdiff : v0.Node ≠ v1.Node)
    (hoverlay : conn.NodeOverlay = "" ∨
      GoMap.get c.plugin.ramConfigCache.NodeOverlays conn.NodeOverlay = none) :
    ∃ msg d, RenderTopologyL2PP E vs vnfs conn connIndex c = .ok (some msg, d) ∧
      d.vsState.Msg = c.vsState.Msg ++ [msg] ∧
      callsBetween c d = [Call.AppendStatusMsgToVnfService msg] ∧
      d.plugin = c.plugin ∧
      d.vsState.RenderedVppAgentEntries = c.vsState.RenderedVppAgentEntries := by
  obtain ⟨w0, w1, hw0, hw1, hrun⟩ :=
    RenderTopologyL2PP_of_resolved E vs vnfs conn connIndex c i0 i1 hconn h0 h1
  have e0 : w0 = v0 := Option.some.inj (hw0.symm.trans hv0)
  have e1 : w1 = v1 := Option.some.inj (hw1.symm.trans hv1)
  subst e0 e1
  rw [hrun]
  unfold renderResolved
  simp only [if_neg hdiff, hconn, sliceGet_zero, sliceGet_one, bind, Except.bind, pure,
    Except.pure]
  by_cases hempty : conn.NodeOverlay = ""
  · simp only [if_pos hempty]
    exact ⟨_, _, rfl, rfl, callsBetween_append c _ _ rfl, rfl, rfl⟩
  · have hmiss : GoMap.get c.plugin.ramConfigCache.NodeOverlays conn.NodeOverlay = none := by
      rcases hoverlay with h | h
      · exact absurd h hempty
      · exact h
    simp only [if_neg hempty, hmiss]
    exact ⟨_, _, rfl, rfl, callsBetween_append c _ _ rfl, rfl, rfl⟩

/-- Witness for C11: `vnf1` on `node1` and `vnf5` on `node2`, connected without naming an
overlay. -/
theorem C11_RenderTopologyL2PP_missing_overlay_witness :
    demoConnNoOverlay.Interfaces =
      [ConnectionInterface.mk "vnf1" "port1", ConnectionInterface.mk "vnf5" "port1"] ∧
    endpointUnresolved demoRenderTwoNodes.plugin (ConnectionInterface.mk "vnf1" "port1") = false ∧
    endpointUnresolved demoRenderTwoNodes.plugin (ConnectionInterface.mk "vnf5" "port1") = false ∧
    GoMap.get demoRenderTwoNodes.plugin.ramConfigCache.VNFToNodeMap "vnf1"
      = some (VNFToNodeMap.mk "vnf1" "node1") ∧
    GoMap.get demoRenderTwoNodes.plugin.ramConfigCache.VNFToNodeMap "vnf5"
      = some (VNFToNodeMap.mk "vnf5" "node2") ∧
    (VNFToNodeMap.mk "vnf1" "node1").Node ≠ (VNFToNodeMap.mk "vnf5" "node2").Node ∧
    (demoConnNoOverlay.NodeOverlay = "" ∨
      GoMap.get demoRenderTwoNodes.plugin.ramConfigCache.NodeOverlays
        demoConnNoOverlay.NodeOverlay = none) ∧
    ∃ msg d, RenderTopologyL2PP demoEnv (VNFService.mk "svc") [] demoConnNoOverlay 0
        demoRenderTwoNodes = .ok (some msg, d) ∧
      d.vsState.Msg = demoRenderTwoNodes.vsState.Msg ++ [msg] ∧
      callsBetween demoRenderTwoNodes d = [Call.AppendStatusMsgToVnfService msg] ∧
      d.plugin = demoRenderTwoNodes.plugin ∧
      d.vsState.RenderedVppAgentEntries = demoRenderTwoNodes.vsState.RenderedVppAgentEntries :=
  ⟨rfl, rfl, rfl, rfl, rfl, by decide, Or.inl rfl,
    C11_RenderTopologyL2PP_missing_overlay demoEnv (VNFService.mk "svc") [] demoConnNoOverlay 0
      demoRenderTwoNodes (ConnectionInterface.mk "vnf1" "port1")
      (ConnectionInterface.mk "vnf5" "port1") (VNFToNodeMap.mk "vnf1" "node1")
      (VNFToNodeMap.mk "vnf5" "node2") rfl rfl rfl rfl rfl (by decide) (Or.inl rfl)⟩

/-- C16 (code defect): `RenderTopologyL2PP` never checks the interface that
`findVnfAndInterfaceInVnfList` returns. With `vnf1` and `vnf2` both placed on the known node
`node1` and a VNF list that holds neither interface, it appends no status message and
returns no error: it enters the same-node renderer, which panics with a nil pointer
dereference on `vnfInterfaces[0].MemifParms`. The same-node renderer does so for every
absent first interface. -/
theorem C16_RenderTopologyL2PP_missing_interface_panics :
    demoEnv.findVnfAndInterfaceInVnfList "vnf1" "port1" [] = (none, "") ∧
    endpointUnresolved demoRender.plugin (ConnectionInterface.mk "vnf1" "port1") = false ∧
    endpointUnresolved demoRender.plugin (ConnectionInterface.mk "vnf2" "port2") = false ∧
    RenderTopologyL2PP demoEnv (VNFService.mk "svc") [] demoConn 0 demoRender
      = .error Fault.nilDeref ∧
    (∀ (E : Env Nat Unit) (vs : VNFService) (vppAgent : String) (conn : Connection)
        (connIndex : Nat) (others : List (Option Interface)) (vnfTypes : List String)
        (c : Render Nat Unit),
      renderToplogySegmentL2PPSameNode E vs vppAgent conn connIndex (none :: others) vnfTypes c
        = .error Fault.nilDeref) := by
  refine ⟨rfl, rfl, rfl, rfl, ?_⟩
  intro E vs vppAgent conn connIndex others vnfTypes c
  unfold renderToplogySegmentL2PPSameNode
  simp only [for2, sameNodeOverrideBody, sliceGet_zero, deref, bind, Except.bind]

theorem interNodeInterfaceBody_ok (E : Env α χ) (vs : VNFService) (conn : Connection)
    (vnfInterfaces : List (Option Interface)) (v2n : Arr2 VNFToNodeMap)
    (vnfTypes : List String) (i : Int) (xconn xconn1 : Arr2 String) (c : Render α χ)
    (m : VNFToNodeMap) (ci : ConnectionInterface) (vi : Option Interface) (t : String)
    (p1 : Plugin α χ) (s1 : VNFServiceState) (name : String)
    (hm : v2n.get i = .ok m)
    (hci : sliceGet conn.Interfaces i = .ok ci) (hvi : sliceGet vnfInterfaces i = .ok vi)
    (ht : sliceGet vnfTypes i = .ok t)
    (hcall : E.RenderToplogyInterfacePair vs m.Node ci vi t (c.plugin, c.vsState)
      = ((p1, s1), (name, none)))
    (hset : xconn.set i name = .ok xconn1) :
    interNodeInterfaceBody E vs conn vnfInterfaces v2n vnfTypes i (xconn, c) =
      .ok (Flow.next (xconn1,
        { plugin := p1, vsState := s1,
          calls := c.calls ++ [Call.RenderToplogyInterfacePair m.Node ci] })) := by
  unfold interNodeInterfaceBody
  simp only [hm, hci, hvi, ht, callRenderToplogyInterfacePair, hcall, hset, bind, Except.bind,
    pure, Except.pure]

theorem interNodeInterface_loop (E : Env α χ) (vs : VNFService) (conn : Connection)
    (vi0 vi1 : Option Interface) (m0 m1 : VNFToNodeMap) (t0 t1 : String) (c : Render α χ)
    (ci0 ci1 : ConnectionInterface) (p1 p2 : Plugin α χ) (s1 s2 : VNFServiceState)
    (a b : String) (hconn : conn.Interfaces = [ci0, ci1])
    (hpair0 : E.RenderToplogyInterfacePair vs m0.Node ci0 vi0 t0 (c.plugin, c.vsState)
      = ((p1, s1), (a, none)))
    (hpair1 : E.RenderToplogyInterfacePair vs m1.Node ci1 vi1 t1 (p1, s1)
      = ((p2, s2), (b, none))) :
    for2 (interNodeInterfaceBody E vs conn [vi0, vi1] (Arr2.mk m0 m1) [t0, t1])
        (Arr2.mk "" "", c) =
      .ok (Flow.next (Arr2.mk a b,
        { plugin := p2, vsState := s2,
          calls := c.calls ++ [Call.RenderToplogyInterfacePair m0.Node ci0,
                               Call.RenderToplogyInterfacePair m1.Node ci1] })) := by
  have hbody0 := interNodeInterfaceBody_ok E vs conn [vi0, vi1] (Arr2.mk m0 m1) [t0, t1] 0
    (Arr2.mk "" "") (Arr2.mk a "") c m0 ci0 vi0 t0 p1 s1 a rfl
    (by rw [hconn]; exact sliceGet_zero _ _) (sliceGet_zero _ _) (sliceGet_zero _ _) hpair0 rfl
  have hbody1 := interNodeInterfaceBody_ok E vs conn [vi0, vi1] (Arr2.mk m0 m1) [t0, t1] 1
    (Arr2.mk a "") (Arr2.mk a b)
    { plugin := p1, vsState := s1,
      calls := c.calls ++ [Call.RenderToplogyInterfacePair m0.Node ci0] }
    m1 ci1 vi1 t1 p2 s2 b rfl
    (by rw [hconn]; exact sliceGet_one _ _ _) (sliceGet_one _ _ _) (sliceGet_one _ _ _)
    hpair1 rfl
  simp only [for2, hbody0, hbody1, List.append_assoc, List.singleton_append]

theorem interNodeTunnelBody_ok (E : Env α χ) (vs : VNFService) (conn : Connection)
    (connIndex : Nat) (nodeOverlay : NodeOverlay) (v2n : Arr2 VNFToNodeMap) (vni : Nat)
    (i j : Int) (xconn xconn1 : Arr2 String) (c : Render α χ)
    (nI nP : VNFToNodeMap) (cI cP : ConnectionInterface) (parms : NodeOverlay_VxlanMeshParms)
    (hpeer : peer i = j) (hgI : v2n.get i = .ok nI) (hgP : v2n.get j = .ok nP)
    (hcI : sliceGet conn.Interfaces i = .ok cI) (hcP : sliceGet conn.Interfaces j = .ok cP)
    (hparms : nodeOverlay.VxlanMeshParms = some parms)
    (hset : xconn.set i (tunnelIfName vs connIndex vni nI.Node cI nP.Node cP) = .ok xconn1)
    (hok : ¬tunnelAddressFails E parms.LoopbackIpamPoolName nI.Node nP.Node c) :
    interNodeTunnelBody E vs conn connIndex nodeOverlay v2n vni i (xconn, c) =
      .ok (Flow.next (xconn1,
        tunnelStep E parms.LoopbackIpamPoolName parms.OutgoingInterfaceLabel nI.Node nP.Node
          (tunnelIfName vs connIndex vni nI.Node cI nP.Node cP) vni c)) := by
  unfold tunnelAddressFails at hok
  simp only [not_or, not_not] at hok
  unfold interNodeTunnelBody
  simp only [hpeer, hgI, hgP, hcI, hcP, hparms, deref, bind, Except.bind, pure, Except.pure]
  unfold tunnelIfName at hset
  simp only [hset, hok.1, hok.2]
  rfl

theorem tunnelStep_calls (E : Env α χ) (pool label own peerNode ifName : String) (vni : Nat)
    (c : Render α χ) :
    (tunnelStep E pool label own peerNode ifName vni c).calls = c.calls ++
      [Call.NodeOverlayAllocateVxlanAddress pool own,
       Call.NodeOverlayAllocateVxlanAddress pool peerNode,
       Call.ConstructVxlanInterface own ifName vni
         (callNodeOverlayAllocateVxlanAddress E pool own c).1.1
         (callNodeOverlayAllocateVxlanAddress E pool peerNode
           (callNodeOverlayAllocateVxlanAddress E pool own c).2).1.1,
       Call.ConfigTransactionAddVppEntry (E.ConstructVxlanInterface own ifName vni
         (callNodeOverlayAllocateVxlanAddress E pool own c).1.1
         (callNodeOverlayAllocateVxlanAddress E pool peerNode
           (callNodeOverlayAllocateVxlanAddress E pool own c).2).1.1),
       Call.NodeRenderVxlanStaticRoutes own peerNode
         (callNodeOverlayAllocateVxlanAddress E pool own c).1.1
         (callNodeOverlayAllocateVxlanAddress E pool peerNode
           (callNodeOverlayAllocateVxlanAddress E pool own c).2).1.1 label] := by
  simp [tunnelStep, addVxlanStaticRoutes, addVxlanInterface, callNodeOverlayAllocateVxlanAddress]

theorem interNode_after_interfaces (E : Env α χ) (vs : VNFService) (conn : Connection)
    (connIndex : Nat) (vnfInterfaces : List (Option Interface)) (nodeOverlay : NodeOverlay)
    (m0 m1 : VNFToNodeMap) (vnfTypes : List String) (c c2 : Render α χ)
    (ci0 ci1 : ConnectionInterface) (a b : String) (parms : NodeOverlay_VxlanMeshParms)
    (al al1 : α) (vni : Nat)
    (hconn : conn.Interfaces = [ci0, ci1])
    (hloop : for2 (interNodeInterfaceBody E vs conn vnfInterfaces (Arr2.mk m0 m1) vnfTypes)
      (Arr2.mk "" "", c) = .ok (Flow.next (Arr2.mk a b, c2)))
    (hcheck : ¬(nodeOverlay.NodeOverlayType ≠ E.NodeOverlayTypeMesh ∧
      nodeOverlay.ConnectionType ≠ E.NodeOverlayConnectionTypeVxlan))
    (hparms : nodeOverlay.VxlanMeshParms = some parms)
    (halloc : GoMap.get c2.plugin.ramConfigCache.NodeOverlayVniAllocators nodeOverlay.Name
      = some al)
    (hvni : E.AllocateVni al = (al1, (vni, none)))
    (hok0 : ¬tunnelAddressFails E parms.LoopbackIpamPoolName m0.Node m1.Node
      (callAllocateVni E nodeOverlay.Name al c2).2)
    (hok1 : ¬tunnelAddressFails E parms.LoopbackIpamPoolName m1.Node m0.Node
      (tunnelStep E parms.LoopbackIpamPoolName parms.OutgoingInterfaceLabel m0.Node m1.Node
        (tunnelIfName vs connIndex vni m0.Node ci0 m1.Node ci1) vni
        (callAllocateVni E nodeOverlay.Name al c2).2)) :
    renderToplogySegmentL2PPInterNode E vs conn connIndex vnfInterfaces nodeOverlay
        (Arr2.mk m0 m1) vnfTypes c =
      .ok (none,
        addXConnect E m1.Node b (tunnelIfName vs connIndex vni m1.Node ci1 m0.Node ci0)
          (addXConnect E m0.Node a (tunnelIfName vs connIndex vni m0.Node ci0 m1.Node ci1)
            (tunnelStep E parms.LoopbackIpamPoolName parms.OutgoingInterfaceLabel m1.Node
              m0.Node (tunnelIfName vs connIndex vni m1.Node ci1 m0.Node ci0) vni
              (tunnelStep E parms.LoopbackIpamPoolName parms.OutgoingInterfaceLabel m0.Node
                m1.Node (tunnelIfName vs connIndex vni m0.Node ci0 m1.Node ci1) vni
                (callAllocateVni E nodeOverlay.Name al c2).2)))) := by
  have hv1 : (callAllocateVni E nodeOverlay.Name al c2).1 = (vni, none) := by
    simp only [callAllocateVni, hvni]
  have hbody0 := interNodeTunnelBody_ok E vs conn connIndex nodeOverlay (Arr2.mk m0 m1) vni
    0 1 (Arr2.mk "" "") (Arr2.mk (tunnelIfName vs connIndex vni m0.Node ci0 m1.Node ci1) "")
    (callAllocateVni E nodeOverlay.Name al c2).2 m0 m1 ci0 ci1 parms peer_zero rfl rfl
    (by rw [hconn]; exact sliceGet_zero _ _) (by rw [hconn]; exact sliceGet_one _ _ _)
    hparms rfl hok0
  have hbody1 := interNodeTunnelBody_ok E vs conn connIndex nodeOverlay (Arr2.mk m0 m1) vni
    1 0 (Arr2.mk (tunnelIfName vs connIndex vni m0.Node ci0 m1.Node ci1) "")
    (Arr2.mk (tunnelIfName vs connIndex vni m0.Node ci0 m1.Node ci1)
      (tunnelIfName vs connIndex vni m1.Node ci1 m0.Node ci0))
    (tunnelStep E parms.LoopbackIpamPoolName parms.OutgoingInterfaceLabel m0.Node m1.Node
      (tunnelIfName vs connIndex vni m0.Node ci0 m1.Node ci1) vni
      (callAllocateVni E nodeOverlay.Name al c2).2)
    m1 m0 ci1 ci0 parms peer_one rfl rfl
    (by rw [hconn]; exact sliceGet_one _ _ _) (by rw [hconn]; exact sliceGet_zero _ _)
    hparms rfl hok1
  unfold renderToplogySegmentL2PPInterNode
  simp only [hloop, bind, Except.bind, pure, Except.pure, if_neg hcheck, halloc, hv1]
  simp only [for2, hbody0, hbody1, interNodeXConnectBody, Arr2.get, bind, Except.bind, pure,
    Except.pure, if_true, if_false, one_ne_zero]

theorem not_tunnelAddressFails_of_total (E : Env α χ) (pool : String) (addr : String → String)
    (haddr : ∀ (p : Plugin α χ) (node : String),
      (E.NodeOverlayAllocateVxlanAddress pool node p).2 = (addr node, none))
    (own peerNode : String) (c : Render α χ) :
    ¬tunnelAddressFails E pool own peerNode c := by
  unfold tunnelAddressFails
  simp [callNodeOverlayAllocateVxlanAddress, haddr]

/-- C12: on an inter-node connection (endpoint `i` on node `m_i.Node`) over a mesh/VXLAN
overlay, when both interface renderings succeed with names `a` and `b`, the VNI allocation
succeeds with `vni`, and the four address allocations of this render succeed, returning `a0`
both times for node 0 and `a1` both times for node 1, `renderToplogySegmentL2PPInterNode`
returns nil. The calls it makes are exactly, in order: the two interface renderings; one VNI
allocation; for node 0 the two address allocations, one tunnel interface on node 0 carrying
`vni` with source `a0` and destination `a1` (added to the transaction) and the static routes
from node 0 to node 1; the same for node 1 with source `a1` and destination `a0`; then one
cross-connect on node 0 between `a` and the tunnel interface of node 0, and one on node 1
between `b` and the tunnel interface of node 1. The plugin it leaves is the one the last
helper returned, no status message is added, and the rendered entries are those returned by
the two cross-connect additions after the tunnel entries and the static routes of both
nodes. The hypotheses name what each helper call returns in the state the previous call
left; `withVniAllocator` is the plugin after the VNI allocation. -/
theorem C12_inter_node_tunnel_mesh (E : Env α χ) (vs : VNFService) (conn : Connection)
    (connIndex : Nat) (vi0 vi1 : Option Interface) (nodeOverlay : NodeOverlay)
    (m0 m1 : VNFToNodeMap) (t0 t1 : String) (c : Render α χ) (ci0 ci1 : ConnectionInterface)
    (p1 p2 : Plugin α χ) (s1 s2 : VNFServiceState) (a b : String)
    (parms : NodeOverlay_VxlanMeshParms) (al al1 : α) (vni : Nat) (a0 a1 : String)
    (qA qB qC qD qE qF qG qH qI qJ : Plugin α χ)
    (e1 r0 e2 r1 e3 e4 : List RenderedVppAgentEntry)
    (hconn : conn.Interfaces = [ci0, ci1])
    (hvalid : nodeOverlay.NodeOverlayType = E.NodeOverlayTypeMesh ∧
      nodeOverlay.ConnectionType = E.NodeOverlayConnectionTypeVxlan)
    (hparms : nodeOverlay.VxlanMeshParms = some parms)
    (hpair0 : E.RenderToplogyInterfacePair vs m0.Node ci0 vi0 t0 (c.plugin, c.vsState)
      = ((p1, s1), (a, none)))
    (hpair1 : E.RenderToplogyInterfacePair vs m1.Node ci1 vi1 t1 (p1, s1)
      = ((p2, s2), (b, none)))
    (halloc : GoMap.get p2.ramConfigCache.NodeOverlayVniAllocators nodeOverlay.Name = some al)
    (hvni : E.AllocateVni al = (al1, (vni, none)))
    (hA0 : E.NodeOverlayAllocateVxlanAddress parms.LoopbackIpamPoolName m0.Node
      (withVniAllocator p2 nodeOverlay.Name al1) = (qA, (a0, none)))
    (hA1 : E.NodeOverlayAllocateVxlanAddress parms.LoopbackIpamPoolName m1.Node qA
      = (qB, (a1, none)))
    (hT0 : E.ConfigTransactionAddVppEntry s2.RenderedVppAgentEntries
      (E.ConstructVxlanInterface m0.Node
        (tunnelIfName vs connIndex vni m0.Node ci0 m1.Node ci1) vni a0 a1) qB = (qC, e1))
    (hR0 : E.NodeRenderVxlanStaticRoutes m0.Node m1.Node a0 a1 parms.OutgoingInterfaceLabel qC
      = (qD, r0))
    (hB0 : E.NodeOverlayAllocateVxlanAddress parms.LoopbackIpamPoolName m1.Node qD
      = (qE, (a1, none)))
    (hB1 : E.NodeOverlayAllocateVxlanAddress parms.LoopbackIpamPoolName m0.Node qE
      = (qF, (a0, none)))
    (hT1 : E.ConfigTransactionAddVppEntry (e1 ++ r0)
      (E.ConstructVxlanInterface m1.Node
        (tunnelIfName vs connIndex vni m1.Node ci1 m0.Node ci0) vni a1 a0) qF = (qG, e2))
    (hR1 : E.NodeRenderVxlanStaticRoutes m1.Node m0.Node a1 a0 parms.OutgoingInterfaceLabel qG
      = (qH, r1))
    (hX0 : E.ConfigTransactionAddVppEntries (e2 ++ r1)
      (E.ConstructXConnect m0.Node a (tunnelIfName vs connIndex vni m0.Node ci0 m1.Node ci1)) qH
      = (qI, e3))
    (hX1 : E.ConfigTransactionAddVppEntries e3
      (E.ConstructXConnect m1.Node b (tunnelIfName vs connIndex vni m1.Node ci1 m0.Node ci0)) qI
      = (qJ, e4)) :
    ∃ d, renderToplogySegmentL2PPInterNode E vs conn connIndex [vi0, vi1] nodeOverlay
          (Arr2.mk m0 m1) [t0, t1] c = .ok (none, d) ∧
      d.plugin = qJ ∧
      d.vsState = { Msg := s2.Msg, RenderedVppAgentEntries := e4 } ∧
      callsBetween c d =
        [Call.RenderToplogyInterfacePair m0.Node ci0,
         Call.RenderToplogyInterfacePair m1.Node ci1,
         Call.AllocateVni nodeOverlay.Name,
         Call.NodeOverlayAllocateVxlanAddress parms.LoopbackIpamPoolName m0.Node,
         Call.NodeOverlayAllocateVxlanAddress parms.LoopbackIpamPoolName m1.Node,
         Call.ConstructVxlanInterface m0.Node
           (tunnelIfName vs connIndex vni m0.Node ci0 m1.Node ci1) vni a0 a1,
         Call.ConfigTransactionAddVppEntry (E.ConstructVxlanInterface m0.Node
           (tunnelIfName vs connIndex vni m0.Node ci0 m1.Node ci1) vni a0 a1),
         Call.NodeRenderVxlanStaticRoutes m0.Node m1.Node a0 a1 parms.OutgoingInterfaceLabel,
         Call.NodeOverlayAllocateVxlanAddress parms.LoopbackIpamPoolName m1.Node,
         Call.NodeOverlayAllocateVxlanAddress parms.LoopbackIpamPoolName m0.Node,
         Call.ConstructVxlanInterface m1.Node
           (tunnelIfName vs connIndex vni m1.Node ci1 m0.Node ci0) vni a1 a0,
         Call.ConfigTransactionAddVppEntry (E.ConstructVxlanInterface m1.Node
           (tunnelIfName vs connIndex vni m1.Node ci1 m0.Node ci0) vni a1 a0),
         Call.NodeRenderVxlanStaticRoutes m1.Node m0.Node a1 a0 parms.OutgoingInterfaceLabel,
         Call.ConstructXConnect m0.Node a
           (tunnelIfName vs connIndex vni m0.Node ci0 m1.Node ci1),
         Call.ConfigTransactionAddVppEntries (E.ConstructXConnect m0.Node a
           (tunnelIfName vs connIndex vni m0.Node ci0 m1.Node ci1)),
         Call.ConstructXConnect m1.Node b
           (tunnelIfName vs connIndex vni m1.Node ci1 m0.Node ci0),
         Call.ConfigTransactionAddVppEntries (E.ConstructXConnect m1.Node b
           (tunnelIfName vs connIndex vni m1.Node ci1 m0.Node ci0))] := by
  have hloop := interNodeInterface_loop E vs conn vi0 vi1 m0 m1 t0 t1 c ci0 ci1 p1 p2 s1 s2
    a b hconn hpair0 hpair1
  have hcheck : ¬(nodeOverlay.NodeOverlayType ≠ E.NodeOverlayTypeMesh ∧
      nodeOverlay.ConnectionType ≠ E.NodeOverlayConnectionTypeVxlan) :=
    fun h => h.1 hvalid.1
  simp only [withVniAllocator] at hA0
  have hok0 : ¬tunnelAddressFails E parms.LoopbackIpamPoolName m0.Node m1.Node
      (callAllocateVni E nodeOverlay.Name al
        { plugin := p2, vsState := s2,
          calls := c.calls ++ [Call.RenderToplogyInterfacePair m0.Node ci0,
                               Call.RenderToplogyInterfacePair m1.Node ci1] }).2 := by
    simp [tunnelAddressFails, callNodeOverlayAllocateVxlanAddress, callAllocateVni, hvni, hA0,
      hA1]
  have hok1 : ¬tunnelAddressFails E parms.LoopbackIpamPoolName m1.Node m0.Node
      (tunnelStep E parms.LoopbackIpamPoolName parms.OutgoingInterfaceLabel m0.Node m1.Node
        (tunnelIfName vs connIndex vni m0.Node ci0 m1.Node ci1) vni
        (callAllocateVni E nodeOverlay.Name al
          { plugin := p2, vsState := s2,
            calls := c.calls ++ [Call.RenderToplogyInterfacePair m0.Node ci0,
                                 Call.RenderToplogyInterfacePair m1.Node ci1] }).2) := by
    simp [tunnelAddressFails, tunnelStep, addVxlanStaticRoutes, addVxlanInterface,
      callNodeOverlayAllocateVxlanAddress, callAllocateVni, hvni, hA0, hA1, hT0, hR0, hB0, hB1]
  have hrun := interNode_after_interfaces E vs conn connIndex [vi0, vi1] nodeOverlay m0 m1
    [t0, t1] c _ ci0 ci1 a b parms al al1 vni hconn hloop hcheck hparms halloc hvni hok0 hok1
  refine ⟨_, hrun, ?_, ?_, ?_⟩
  · simp [addXConnect, tunnelStep, addVxlanStaticRoutes, addVxlanInterface,
      callNodeOverlayAllocateVxlanAddress, callAllocateVni, hvni, hA0, hA1, hT0, hR0, hB0, hB1,
      hT1, hR1, hX0, hX1]
  · simp [addXConnect, tunnelStep, addVxlanStaticRoutes, addVxlanInterface,
      callNodeOverlayAllocateVxlanAddress, callAllocateVni, hvni, hA0, hA1, hT0, hR0, hB0, hB1,
      hT1, hR1, hX0, hX1]
  · apply callsBetween_append
    simp [addXConnect, tunnelStep, addVxlanStaticRoutes, addVxlanInterface,
      callNodeOverlayAllocateVxlanAddress, callAllocateVni, hvni, hA0, hA1, hT0, hR0, hB0, hB1,
      hT1, hR1, hX0, hX1]

/-- Witness for C12: `vnf1/port1` on `node1` and `vnf5/port1` on `node2` over the VXLAN
mesh `overlay1`, whose allocator hands out VNI 5; the sample pool gives `node1` the address
`pool1@node1` and `node2` the address `pool1@node2`. -/
theorem C12_inter_node_tunnel_mesh_witness :
    demoConnOverlay1.Interfaces =
      [ConnectionInterface.mk "vnf1" "port1", ConnectionInterface.mk "vnf5" "port1"] ∧
    (demoOverlay1.NodeOverlayType = demoEnv.NodeOverlayTypeMesh ∧
      demoOverlay1.ConnectionType = demoEnv.NodeOverlayConnectionTypeVxlan) ∧
    demoOverlay1.VxlanMeshParms = some demoMeshParms ∧
    demoEnv.RenderToplogyInterfacePair (VNFService.mk "svc") "node1"
        (ConnectionInterface.mk "vnf1" "port1") (some memifPort1) "vnf"
        (demoRenderTwoNodes.plugin, demoRenderTwoNodes.vsState)
      = ((demoPluginTwoNodes, demoStateInter1), ("IF_vnf1_port1", none)) ∧
    demoEnv.RenderToplogyInterfacePair (VNFService.mk "svc") "node2"
        (ConnectionInterface.mk "vnf5" "port1") (some memifPort1) "vnf"
        (demoPluginTwoNodes, demoStateInter1)
      = ((demoPluginTwoNodes, demoStateInter2), ("IF_vnf5_port1", none)) ∧
    GoMap.get demoPluginTwoNodes.ramConfigCache.NodeOverlayVniAllocators demoOverlay1.Name
      = some 4 ∧
    demoEnv.AllocateVni 4 = (5, (5, none)) ∧
    demoEnv.NodeOverlayAllocateVxlanAddress demoMeshParms.LoopbackIpamPoolName "node1"
      (withVniAllocator demoPluginTwoNodes demoOverlay1.Name 5)
      = (demoPluginVni5, (demoAddr "node1", none)) ∧
    demoEnv.NodeOverlayAllocateVxlanAddress demoMeshParms.LoopbackIpamPoolName "node2"
      demoPluginVni5 = (demoPluginVni5, (demoAddr "node2", none)) ∧
    demoEnv.ConfigTransactionAddVppEntry demoStateInter2.RenderedVppAgentEntries
      (demoEnv.ConstructVxlanInterface "node1" demoTunnelName0 5 (demoAddr "node1")
        (demoAddr "node2")) demoPluginVni5 = (demoPluginVni5, demoEntriesTunnel0) ∧
    demoEnv.NodeRenderVxlanStaticRoutes "node1" "node2" (demoAddr "node1") (demoAddr "node2")
      demoMeshParms.OutgoingInterfaceLabel demoPluginVni5 = (demoPluginVni5, demoRoutes0) ∧
    demoEnv.NodeOverlayAllocateVxlanAddress demoMeshParms.LoopbackIpamPoolName "node2"
      demoPluginVni5 = (demoPluginVni5, (demoAddr "node2", none)) ∧
    demoEnv.NodeOverlayAllocateVxlanAddress demoMeshParms.LoopbackIpamPoolName "node1"
      demoPluginVni5 = (demoPluginVni5, (demoAddr "node1", none)) ∧
    demoEnv.ConfigTransactionAddVppEntry (demoEntriesTunnel0 ++ demoRoutes0)
      (demoEnv.ConstructVxlanInterface "node2" demoTunnelName1 5 (demoAddr "node2")
        (demoAddr "node1")) demoPluginVni5 = (demoPluginVni5, demoEntriesTunnel1) ∧
    demoEnv.NodeRenderVxlanStaticRoutes "node2" "node1" (demoAddr "node2") (demoAddr "node1")
      demoMeshParms.OutgoingInterfaceLabel demoPluginVni5 = (demoPluginVni5, demoRoutes1) ∧
    demoEnv.ConfigTransactionAddVppEntries (demoEntriesTunnel1 ++ demoRoutes1)
      (demoEnv.ConstructXConnect "node1" "IF_vnf1_port1" demoTunnelName0) demoPluginVni5
      = (demoPluginVni5, demoEntriesXConnect0) ∧
    demoEnv.ConfigTransactionAddVppEntries demoEntriesXConnect0
      (demoEnv.ConstructXConnect "node2" "IF_vnf5_port1" demoTunnelName1) demoPluginVni5
      = (demoPluginVni5, demoEntriesXConnect1) ∧
    ∃ d, renderToplogySegmentL2PPInterNode demoEnv (VNFService.mk "svc") demoConnOverlay1 0
          [some memifPort1, some memifPort1] demoOverlay1
          (Arr2.mk (VNFToNodeMap.mk "vnf1" "node1") (VNFToNodeMap.mk "vnf5" "node2"))
          ["vnf", "vnf"] demoRenderTwoNodes = .ok (none, d) ∧
      d.plugin = demoPluginVni5 ∧
      d.vsState = { Msg := demoStateInter2.Msg, RenderedVppAgentEntries := demoEntriesXConnect1 } ∧
      callsBetween demoRenderTwoNodes d =
        [Call.RenderToplogyInterfacePair "node1" (ConnectionInterface.mk "vnf1" "port1"),
         Call.RenderToplogyInterfacePair "node2" (ConnectionInterface.mk "vnf5" "port1"),
         Call.AllocateVni "overlay1",
         Call.NodeOverlayAllocateVxlanAddress "pool1" "node1",
         Call.NodeOverlayAllocateVxlanAddress "pool1" "node2",
         Call.ConstructVxlanInterface "node1" demoTunnelName0 5
           (demoAddr "node1") (demoAddr "node2"),
         Call.ConfigTransactionAddVppEntry (demoEnv.ConstructVxlanInterface "node1"
           demoTunnelName0 5 (demoAddr "node1") (demoAddr "node2")),
         Call.NodeRenderVxlanStaticRoutes "node1" "node2" (demoAddr "node1") (demoAddr "node2")
           "uplink",
         Call.NodeOverlayAllocateVxlanAddress "pool1" "node2",
         Call.NodeOverlayAllocateVxlanAddress "pool1" "node1",
         Call.ConstructVxlanInterface "node2" demoTunnelName1 5
           (demoAddr "node2") (demoAddr "node1"),
         Call.ConfigTransactionAddVppEntry (demoEnv.ConstructVxlanInterface "node2"
           demoTunnelName1 5 (demoAddr "node2") (demoAddr "node1")),
         Call.NodeRenderVxlanStaticRoutes "node2" "node1" (demoAddr "node2") (demoAddr "node1")
           "uplink",
         Call.ConstructXConnect "node1" "IF_vnf1_port1" demoTunnelName0,
         Call.ConfigTransactionAddVppEntries
           (demoEnv.ConstructXConnect "node1" "IF_vnf1_port1" demoTunnelName0),
         Call.ConstructXConnect "node2" "IF_vnf5_port1" demoTunnelName1,
         Call.ConfigTransactionAddVppEntries
           (demoEnv.ConstructXConnect "node2" "IF_vnf5_port1" demoTunnelName1)] :=
  ⟨rfl, ⟨rfl, rfl⟩, rfl, rfl, rfl, rfl, rfl, rfl, rfl, rfl, rfl, rfl, rfl, rfl, rfl, rfl, rfl,
    C12_inter_node_tunnel_mesh demoEnv (VNFService.mk "svc") demoConnOverlay1 0
      (some memifPort1) (some memifPort1) demoOverlay1 (VNFToNodeMap.mk "vnf1" "node1")
      (VNFToNodeMap.mk "vnf5" "node2") "vnf" "vnf" demoRenderTwoNodes
      (ConnectionInterface.mk "vnf1" "port1") (ConnectionInterface.mk "vnf5" "port1")
      demoPluginTwoNodes demoPluginTwoNodes demoStateInter1 demoStateInter2
      "IF_vnf1_port1" "IF_vnf5_port1" demoMeshParms 4 5 5 (demoAddr "node1") (demoAddr "node2")
      demoPluginVni5 demoPluginVni5 demoPluginVni5 demoPluginVni5 demoPluginVni5
      demoPluginVni5 demoPluginVni5 demoPluginVni5 demoPluginVni5 demoPluginVni5
      demoEntriesTunnel0 demoRoutes0 demoEntriesTunnel1 demoRoutes1 demoEntriesXConnect0
      demoEntriesXConnect1
      rfl ⟨rfl, rfl⟩ rfl rfl rfl rfl rfl rfl rfl rfl rfl rfl rfl rfl rfl rfl rfl⟩

theorem demo_interNode_render (nodeOverlay : NodeOverlay) (al : Nat) (c : Render Nat Unit)
    (hname : nodeOverlay.Name = "overlay1")
    (hparms : nodeOverlay.VxlanMeshParms = some demoMeshParms)
    (hcheck : ¬(nodeOverlay.NodeOverlayType ≠ demoEnv.NodeOverlayTypeMesh ∧
      nodeOverlay.ConnectionType ≠ demoEnv.NodeOverlayConnectionTypeVxlan))
    (halloc : GoMap.get c.plugin.ramConfigCache.NodeOverlayVniAllocators "overlay1" = some al) :
    renderToplogySegmentL2PPInterNode demoEnv (VNFService.mk "svc") demoConnOverlay1 0
        [some memifPort1, some memifPort1] nodeOverlay
        (Arr2.mk (VNFToNodeMap.mk "vnf1" "node1") (VNFToNodeMap.mk "vnf5" "node2"))
        ["vnf", "vnf"] c = .ok (none, demoInterNodeDone al c) := by
  have hloop : for2 (interNodeInterfaceBody demoEnv (VNFService.mk "svc") demoConnOverlay1
      [some memifPort1, some memifPort1]
      (Arr2.mk (VNFToNodeMap.mk "vnf1" "node1") (VNFToNodeMap.mk "vnf5" "node2")) ["vnf", "vnf"])
      (Arr2.mk "" "", c) =
        .ok (Flow.next (Arr2.mk "IF_vnf1_port1" "IF_vnf5_port1", demoAfterInterfaces c)) :=
    interNodeInterface_loop demoEnv (VNFService.mk "svc") demoConnOverlay1
      (some memifPort1) (some memifPort1) (VNFToNodeMap.mk "vnf1" "node1")
      (VNFToNodeMap.mk "vnf5" "node2") "vnf" "vnf" c (ConnectionInterface.mk "vnf1" "port1")
      (ConnectionInterface.mk "vnf5" "port1") c.plugin c.plugin
      { Msg := c.vsState.Msg
        RenderedVppAgentEntries := c.vsState.RenderedVppAgentEntries ++
          [RenderedVppAgentEntry.mk "node1/vnf1/port1" "if"] }
      (demoAfterInterfaces c).vsState "IF_vnf1_port1" "IF_vnf5_port1" rfl rfl rfl
  have hrun := interNode_after_interfaces demoEnv (VNFService.mk "svc") demoConnOverlay1 0
    [some memifPort1, some memifPort1] nodeOverlay (VNFToNodeMap.mk "vnf1" "node1")
    (VNFToNodeMap.mk "vnf5" "node2") ["vnf", "vnf"] c (demoAfterInterfaces c)
    (ConnectionInterface.mk "vnf1" "port1") (ConnectionInterface.mk "vnf5" "port1")
    "IF_vnf1_port1" "IF_vnf5_port1" demoMeshParms al (al + 1) (al + 1) rfl hloop
    hcheck hparms (by rw [hname]; exact halloc) rfl
    (not_tunnelAddressFails_of_total demoEnv _ demoAddr (fun _ _ => rfl) _ _ _)
    (not_tunnelAddressFails_of_total demoEnv _ demoAddr (fun _ _ => rfl) _ _ _)
  rw [hrun, hname]
  rfl

/-- C17 (code defect): the check at source lines 188-189 joins its two tests with `&&`, so
it rejects an overlay only when the type is not mesh and the connection type is not VXLAN.
For the overlay `overlay1` of type `hub_and_spoke` with connection type `vxlan`,
`renderToplogySegmentL2PPInterNode` appends no status message and returns nil: it allocates
VNI 5 and constructs one tunnel interface on `node1` and one on `node2`. -/
theorem C17_overlay_check_accepts_non_mesh_overlay :
    demoOverlayHub.NodeOverlayType ≠ demoEnv.NodeOverlayTypeMesh ∧
    ∃ d, renderToplogySegmentL2PPInterNode demoEnv (VNFService.mk "svc") demoConnOverlay1 0
          [some memifPort1, some memifPort1] demoOverlayHub
          (Arr2.mk (VNFToNodeMap.mk "vnf1" "node1") (VNFToNodeMap.mk "vnf5" "node2"))
          ["vnf", "vnf"] demoRenderTwoNodes = .ok (none, d) ∧
      (callsBetween demoRenderTwoNodes d).filter Call.isStatusMsg = [] ∧
      Call.AllocateVni "overlay1" ∈ callsBetween demoRenderTwoNodes d ∧
      (callsBetween demoRenderTwoNodes d).filterMap Call.tunnelInterface =
        [("node1", tunnelIfName (VNFService.mk "svc") 0 5 "node1"
            (ConnectionInterface.mk "vnf1" "port1") "node2"
            (ConnectionInterface.mk "vnf5" "port1"), 5),
         ("node2", tunnelIfName (VNFService.mk "svc") 0 5 "node2"
            (ConnectionInterface.mk "vnf5" "port1") "node1"
            (ConnectionInterface.mk "vnf1" "port1"), 5)] := by
  refine ⟨by decide, demoInterNodeDone 4 demoRenderTwoNodes,
    demo_interNode_render demoOverlayHub 4 demoRenderTwoNodes rfl rfl (fun h => h.2 rfl) rfl,
    rfl, ?_, rfl⟩
  simp [callsBetween, demoInterNodeDone, addXConnect, tunnelStep_calls, callAllocateVni,
    demoAfterInterfaces, demoRenderTwoNodes]

end TopologyTheorems

/-! ## Theorems: adding entries to the transaction -/

/-- C18: `RenderTxnAddVppEntryToTxn` returns the empty list for every input list and every
object and returns the package state as it was, so neither `beforeMap` nor `afterMap`
changes. `RenderTxnAddVppEntriesToTxn` therefore returns its input list when there is no
object to add, and the empty list when there is at least one. -/
theorem C18_RenderTxnAddVppEntryToTxn_returns_empty :
    (∀ (s : TxnState) (entries : List RenderedVppAgentEntry) (kv : KVType),
      RenderTxnAddVppEntryToTxn s entries kv = (s, []) ∧
      (RenderTxnAddVppEntryToTxn s entries kv).1.beforeMap = s.beforeMap ∧
      (RenderTxnAddVppEntryToTxn s entries kv).1.afterMap = s.afterMap) ∧
    (∀ (s : TxnState) (entries : List RenderedVppAgentEntry),
      RenderTxnAddVppEntriesToTxn s entries [] = (s, entries)) ∧
    (∀ (s : TxnState) (entries : List RenderedVppAgentEntry) (kv : KVType) (kvs : List KVType),
      RenderTxnAddVppEntriesToTxn s entries (kv :: kvs) = (s, [])) := by
  refine ⟨fun s entries kv => ⟨rfl, rfl, rfl⟩, fun s entries => rfl, ?_⟩
  intro s entries kv kvs
  have hfold : ∀ (l : List KVType) (acc : List RenderedVppAgentEntry),
      RenderTxnAddVppEntriesToTxn s acc l = (s, if l = [] then acc else []) := by
    intro l
    induction l using List.reverseRecOn with
    | nil => intro acc; rfl
    | append_singleton l x ih =>
      intro acc
      unfold RenderTxnAddVppEntriesToTxn at ih ⊢
      rw [List.foldl_append, ih acc]
      simp [RenderTxnAddVppEntryToTxn]
  rw [hfold]
  simp

/-! ## Theorems: reload of persisted status -/

section ReloadTheorems

variable {χ : Type}

theorem highWater_append (base : Nat) (l1 l2 : List Nat) :
    highWater base (l1 ++ l2) = highWater (highWater base l1) l2 := by
  simp [highWater, List.foldl_append]

theorem le_highWater (ids : List Nat) :
    ∀ base, base ≤ highWater base ids ∧ ∀ x ∈ ids, x ≤ highWater base ids := by
  induction ids with
  | nil => intro base; exact ⟨Nat.le_refl _, fun x hx => by cases hx⟩
  | cons y ys ih =>
    intro base
    have h := ih (max base y)
    constructor
    · exact Nat.le_trans (Nat.le_max_left base y) h.1
    · intro x hx
      rcases List.mem_cons.mp hx with hx | hx
      · subst hx
        exact Nat.le_trans (Nat.le_max_right base x) h.1
      · exact h.2 x hx

theorem highWater_perm (base : Nat) (l1 l2 : List Nat) (hperm : l1.Perm l2) :
    highWater base l1 = highWater base l2 := by
  unfold highWater
  induction hperm generalizing base with
  | nil => rfl
  | cons x _ ih => exact ih (max base x)
  | swap x y l =>
    simp only [List.foldl_cons]
    rw [Nat.max_assoc, Nat.max_comm y x, ← Nat.max_assoc]
  | trans _ _ ih1 ih2 => exact (ih1 base).trans (ih2 base)

theorem recordInterfaceStatus_counters (E : ReloadEnv χ) (name : String) (st : Controller χ)
    (ifStatus : InterfaceStatus)
    (hupdate : ∀ i n, KeepsCounters (E.UpdateRamCacheAllocatorsForInterfaceStatus i n)) :
    (recordInterfaceStatus E name st ifStatus).MemifID = max st.MemifID ifStatus.MemifID ∧
    (recordInterfaceStatus E name st ifStatus).MacAddrID
      = max st.MacAddrID ifStatus.MacAddrID := by
  unfold recordInterfaceStatus
  simp only [(hupdate ifStatus name _).1, (hupdate ifStatus name _).2]
  constructor
  · by_cases h1 : ifStatus.MemifID > st.MemifID
    · by_cases h2 : ifStatus.MacAddrID > st.MacAddrID <;>
        simp [h1, h2, Nat.max_eq_right (Nat.le_of_lt h1)]
    · by_cases h2 : ifStatus.MacAddrID > st.MacAddrID <;>
        simp [h1, h2, Nat.max_eq_left (Nat.le_of_not_lt h1)]
  · by_cases h1 : ifStatus.MemifID > st.MemifID
    · by_cases h2 : ifStatus.MacAddrID > st.MacAddrID
      · simp [h1, h2, Nat.max_eq_right (Nat.le_of_lt h2)]
      · simp [h1, h2, Nat.max_eq_left (Nat.le_of_not_lt h2)]
    · by_cases h2 : ifStatus.MacAddrID > st.MacAddrID
      · simp [h1, h2, Nat.max_eq_right (Nat.le_of_lt h2)]
      · simp [h1, h2, Nat.max_eq_left (Nat.le_of_not_lt h2)]

theorem recordInterfaces_counters (E : ReloadEnv χ) (name : String)
    (hupdate : ∀ i n, KeepsCounters (E.UpdateRamCacheAllocatorsForInterfaceStatus i n))
    (ifs : List InterfaceStatus) :
    ∀ st : Controller χ,
      (ifs.foldl (recordInterfaceStatus E name) st).MemifID
        = highWater st.MemifID (ifs.map InterfaceStatus.MemifID) ∧
      (ifs.foldl (recordInterfaceStatus E name) st).MacAddrID
        = highWater st.MacAddrID (ifs.map InterfaceStatus.MacAddrID) := by
  induction ifs with
  | nil => intro st; exact ⟨rfl, rfl⟩
  | cons i rest ih =>
    intro st
    have hstep := recordInterfaceStatus_counters E name st i hupdate
    have hrest := ih (recordInterfaceStatus E name st i)
    simp only [List.foldl_cons, List.map_cons, highWater] at hrest ⊢
    rw [hrest.1, hrest.2, hstep.1, hstep.2]
    exact ⟨rfl, rfl⟩

theorem load_counters (E : ReloadEnv χ) (entries : List (String × RenderedVppAgentEntry)) :
    ∀ st : Controller χ,
      (LoadVppAgentEntriesFromRenderedVppAgentEntries E entries st).1.MemifID = st.MemifID ∧
      (LoadVppAgentEntriesFromRenderedVppAgentEntries E entries st).1.MacAddrID
        = st.MacAddrID := by
  induction entries with
  | nil => intro st; exact ⟨rfl, rfl⟩
  | cons e rest ih =>
    intro st
    unfold LoadVppAgentEntriesFromRenderedVppAgentEntries
    cases herr : (E.ReadFromEtcd e.2.VppAgentKey e.2.VppAgentType).2.2 with
    | some err => simp only [herr, and_self]
    | none =>
      by_cases hfound : (E.ReadFromEtcd e.2.VppAgentKey e.2.VppAgentType).2.1 = true
      · simp only [herr, hfound, if_true]
        exact ih _
      · simp only [herr, hfound]
        exact ih _

theorem persistedInterfaces_cons (entity : StatusEntity) (rest : List StatusEntity) :
    persistedInterfaces (entity :: rest)
      = persistedInterfaces [entity] ++ persistedInterfaces rest := by
  simp [persistedInterfaces]

theorem persistedInterfaces_append (l1 l2 : List StatusEntity) :
    persistedInterfaces (l1 ++ l2) = persistedInterfaces l1 ++ persistedInterfaces l2 := by
  simp [persistedInterfaces]

theorem preProcessEntity_counters (E : ReloadEnv χ) (scope : String) (st : Controller χ)
    (entity : StatusEntity)
    (hcreate : ∀ n sc, KeepsCounters (E.EntityCreate n sc))
    (hupdate : ∀ i n, KeepsCounters (E.UpdateRamCacheAllocatorsForInterfaceStatus i n))
    (hok : (preProcessEntity E scope st entity).2 = none) :
    (preProcessEntity E scope st entity).1.MemifID
      = highWater st.MemifID ((persistedInterfaces [entity]).map InterfaceStatus.MemifID) ∧
    (preProcessEntity E scope st entity).1.MacAddrID
      = highWater st.MacAddrID
          ((persistedInterfaces [entity]).map InterfaceStatus.MacAddrID) := by
  have hc := hcreate entity.Name scope st
  unfold preProcessEntity at hok ⊢
  cases hstatus : entity.Status with
  | none =>
    simp only [persistedInterfaces, hstatus, List.flatMap_cons, List.flatMap_nil,
      List.append_nil, List.map_nil, highWater, List.foldl_nil]
    exact hc
  | some status =>
    simp only [hstatus] at hok ⊢
    have hloaded : ∀ r : Controller χ × GoError,
        r = (if status.RenderedVppAgentEntries.length ≠ 0 then
              LoadVppAgentEntriesFromRenderedVppAgentEntries E status.RenderedVppAgentEntries
                (E.EntityCreate entity.Name scope st)
            else (E.EntityCreate entity.Name scope st, none)) →
        r.1.MemifID = st.MemifID ∧ r.1.MacAddrID = st.MacAddrID := by
      intro r hr
      by_cases hlen : status.RenderedVppAgentEntries.length ≠ 0
      · rw [if_pos hlen] at hr
        rw [hr]
        have hl := load_counters E status.RenderedVppAgentEntries
          (E.EntityCreate entity.Name scope st)
        exact ⟨hl.1.trans hc.1, hl.2.trans hc.2⟩
      · rw [if_neg hlen] at hr
        rw [hr]
        exact hc
    generalize hr : (if status.RenderedVppAgentEntries.length ≠ 0 then
        LoadVppAgentEntriesFromRenderedVppAgentEntries E status.RenderedVppAgentEntries
          (E.EntityCreate entity.Name scope st)
      else (E.EntityCreate entity.Name scope st, none)) = r at hok ⊢
    have hbase := hloaded r hr.symm
    have hpers : persistedInterfaces [entity] = status.Interfaces := by
      simp [persistedInterfaces, hstatus]
    rw [hpers]
    cases herr : r.2 with
    | some err => simp [herr] at hok
    | none =>
      simp only [herr]
      by_cases hlen : status.Interfaces.length ≠ 0
      · simp only [if_pos hlen]
        have hfold := recordInterfaces_counters E entity.Name hupdate status.Interfaces r.1
        rw [hfold.1, hfold.2, hbase.1, hbase.2]
        exact ⟨rfl, rfl⟩
      · simp only [if_neg hlen]
        have hnil : status.Interfaces = [] := by
          cases hi : status.Interfaces with
          | nil => rfl
          | cons x xs => simp [hi] at hlen
        rw [hnil]
        exact hbase

theorem preProcessEntities_counters (E : ReloadEnv χ) (scope : String)
    (hcreate : ∀ n sc, KeepsCounters (E.EntityCreate n sc))
    (hupdate : ∀ i n, KeepsCounters (E.UpdateRamCacheAllocatorsForInterfaceStatus i n))
    (entities : List StatusEntity) :
    ∀ st : Controller χ, (preProcessEntities E scope entities st).2 = none →
      (preProcessEntities E scope entities st).1.MemifID
        = highWater st.MemifID ((persistedInterfaces entities).map InterfaceStatus.MemifID) ∧
      (preProcessEntities E scope entities st).1.MacAddrID
        = highWater st.MacAddrID
            ((persistedInterfaces entities).map InterfaceStatus.MacAddrID) := by
  induction entities with
  | nil => intro st _; exact ⟨rfl, rfl⟩
  | cons entity rest ih =>
    intro st hok
    unfold preProcessEntities at hok ⊢
    cases herr : (preProcessEntity E scope st entity).2 with
    | some err => simp [herr] at hok
    | none =>
      simp only [herr] at hok ⊢
      have hone := preProcessEntity_counters E scope st entity hcreate hupdate herr
      have hrest := ih (preProcessEntity E scope st entity).1 hok
      rw [persistedInterfaces_cons, List.map_append, List.map_append, highWater_append,
        highWater_append, hrest.1, hrest.2, hone.1, hone.2]
      exact ⟨rfl, rfl⟩

theorem PreProcessEntityStatus_counters (E : ReloadEnv χ) (nodes services : List StatusEntity)
    (st st1 : Controller χ)
    (hcreate : ∀ n sc, KeepsCounters (E.EntityCreate n sc))
    (hupdate : ∀ i n, KeepsCounters (E.UpdateRamCacheAllocatorsForInterfaceStatus i n))
    (hok : PreProcessEntityStatus E nodes services st = (st1, none)) :
    st1.MemifID = highWater st.MemifID
        ((persistedInterfaces (nodes ++ services)).map InterfaceStatus.MemifID) ∧
    st1.MacAddrID = highWater st.MacAddrID
        ((persistedInterfaces (nodes ++ services)).map InterfaceStatus.MacAddrID) := by
  unfold PreProcessEntityStatus at hok
  cases herr : (preProcessEntities E E.IPAMPoolScopeNode nodes
      { st with ipamPoolCache := st.ipamPoolCache.map (fun kv => (kv.1, initPoolStatus kv.2)) }).2
    with
  | some err => simp [herr] at hok
  | none =>
    simp only [herr] at hok
    have hnodes := preProcessEntities_counters E E.IPAMPoolScopeNode hcreate hupdate nodes _ herr
    have hok2 := congrArg Prod.snd hok
    have hok1 := congrArg Prod.fst hok
    simp only at hok1 hok2
    have hsvc := preProcessEntities_counters E E.IPAMPoolScopeNetworkService hcreate hupdate
      services _ hok2
    rw [hok1] at hsvc
    rw [persistedInterfaces_append, List.map_append, List.map_append, highWater_append,
      highWater_append, hsvc.1, hsvc.2, hnodes.1, hnodes.2]
    exact ⟨rfl, rfl⟩

/-- C15: when `PreProcessEntityStatus` returns nil, and the helpers `EntityCreate` and
`UpdateRamCacheAllocatorsForInterfaceStatus` leave the two counters alone, the memif counter
equals the maximum of its value before the call and every persisted `MemifID`, and the MAC
counter equals the maximum of its value before the call and every persisted `MacAddrID`.
Hence each counter is at least every persisted identifier and at least its old value, and
a run that visits the same persisted interface statuses in another order ends with the same
counters. -/
theorem C15_PreProcessEntityStatus_high_water_mark (E : ReloadEnv χ)
    (nodes services : List StatusEntity) (st st1 : Controller χ)
    (hcreate : ∀ n sc, KeepsCounters (E.EntityCreate n sc))
    (hupdate : ∀ i n, KeepsCounters (E.UpdateRamCacheAllocatorsForInterfaceStatus i n))
    (hok : PreProcessEntityStatus E nodes services st = (st1, none)) :
    st1.MemifID = highWater st.MemifID
        ((persistedInterfaces (nodes ++ services)).map InterfaceStatus.MemifID) ∧
    st1.MacAddrID = highWater st.MacAddrID
        ((persistedInterfaces (nodes ++ services)).map InterfaceStatus.MacAddrID) ∧
    (∀ x ∈ persistedInterfaces (nodes ++ services),
      x.MemifID ≤ st1.MemifID ∧ x.MacAddrID ≤ st1.MacAddrID) ∧
    (st.MemifID ≤ st1.MemifID ∧ st.MacAddrID ≤ st1.MacAddrID) ∧
    (∀ (nodes2 services2 : List StatusEntity) (st2 : Controller χ),
      (persistedInterfaces (nodes2 ++ services2)).Perm (persistedInterfaces (nodes ++ services)) →
      PreProcessEntityStatus E nodes2 services2 st = (st2, none) →
      st2.MemifID = st1.MemifID ∧ st2.MacAddrID = st1.MacAddrID) := by
  have hmax := PreProcessEntityStatus_counters E nodes services st st1 hcreate hupdate hok
  have hmemif := le_highWater
    ((persistedInterfaces (nodes ++ services)).map InterfaceStatus.MemifID) st.MemifID
  have hmac := le_highWater
    ((persistedInterfaces (nodes ++ services)).map InterfaceStatus.MacAddrID) st.MacAddrID
  refine ⟨hmax.1, hmax.2, ?_, ?_, ?_⟩
  · intro x hx
    rw [hmax.1, hmax.2]
    exact ⟨hmemif.2 _ (List.mem_map_of_mem _ hx), hmac.2 _ (List.mem_map_of_mem _ hx)⟩
  · rw [hmax.1, hmax.2]
    exact ⟨hmemif.1, hmac.1⟩
  · intro nodes2 services2 st2 hperm hok2
    have hmax2 := PreProcessEntityStatus_counters E nodes2 services2 st st2 hcreate hupdate hok2
    rw [hmax.1, hmax.2, hmax2.1, hmax2.2]
    exact ⟨highWater_perm _ _ _ (hperm.map _), highWater_perm _ _ _ (hperm.map _)⟩

/-- Witness for C15: counters at 4 and 1, a node with interfaces (memif 3, MAC 9) and
(memif 7, MAC 2), a service with interface (memif 5, MAC 11): the reload ends with the
counters at 7 and 11. -/
theorem C15_PreProcessEntityStatus_high_water_mark_witness :
    (∀ n sc, KeepsCounters (demoReloadEnv.EntityCreate n sc)) ∧
    (∀ i n, KeepsCounters (demoReloadEnv.UpdateRamCacheAllocatorsForInterfaceStatus i n)) ∧
    PreProcessEntityStatus demoReloadEnv [demoNodeStatus] [demoServiceStatus] demoController
      = (demoControllerReloaded, none) ∧
    demoControllerReloaded.MemifID = highWater demoController.MemifID
        ((persistedInterfaces ([demoNodeStatus] ++ [demoServiceStatus])).map
          InterfaceStatus.MemifID) ∧
    demoControllerReloaded.MacAddrID = highWater demoController.MacAddrID
        ((persistedInterfaces ([demoNodeStatus] ++ [demoServiceStatus])).map
          InterfaceStatus.MacAddrID) ∧
    (∀ x ∈ persistedInterfaces ([demoNodeStatus] ++ [demoServiceStatus]),
      x.MemifID ≤ demoControllerReloaded.MemifID ∧
      x.MacAddrID ≤ demoControllerReloaded.MacAddrID) ∧
    (demoController.MemifID ≤ demoControllerReloaded.MemifID ∧
      demoController.MacAddrID ≤ demoControllerReloaded.MacAddrID) ∧
    (∀ (nodes2 services2 : List StatusEntity) (st2 : Controller Unit),
      (persistedInterfaces (nodes2 ++ services2)).Perm
        (persistedInterfaces ([demoNodeStatus] ++ [demoServiceStatus])) →
      PreProcessEntityStatus demoReloadEnv nodes2 services2 demoController = (st2, none) →
      st2.MemifID = demoControllerReloaded.MemifID ∧
      st2.MacAddrID = demoControllerReloaded.MacAddrID) :=
  ⟨fun _ _ _ => ⟨rfl, rfl⟩, fun _ _ _ => ⟨rfl, rfl⟩, rfl,
    C15_PreProcessEntityStatus_high_water_mark demoReloadEnv [demoNodeStatus]
      [demoServiceStatus] demoController demoControllerReloaded
      (fun _ _ _ => ⟨rfl, rfl⟩) (fun _ _ _ => ⟨rfl, rfl⟩) rfl⟩

end ReloadTheorems

end SfcController
